import Mathlib

/-!
A shallow embedding of the SPT server `LocationGenerator` (static container and
loose-loot generation) together with the collaborator interfaces it consumes
(random-number source, weighted-probability array, item helpers).  Pure parts of
the source are translated as Lean functions; side effects (logging, the id
generator, the random source) are threaded through an explicit state `St`, and
JavaScript runtime errors (dereferencing `undefined`) are modelled as
`Except.error` results paired with the state at the point of failure.

Randomness is modelled as oracle streams inside `St`: every random primitive
consumes the next element of its stream, so universally quantified theorems
over `St` cover every possible seed, and concrete states give concrete runs.
-/

namespace SPT

/-- Log levels of the `ILogger` collaborator. -/
inductive LogLevel where
  | error
  | warning
  | success
  | debug
  | info
deriving DecidableEq, Repr

/-- Grid coordinates assigned to a placed item (`location = \x7bx, y, r\x7d`). -/
structure ItemPlacement where
  x : Nat
  y : Nat
  r : Nat
deriving DecidableEq, Repr

/-- `Item` from `IItem`: the fields `LocationGenerator` reads or writes. -/
structure Item where
  _id : String
  _tpl : String
  parentId : Option String := none
  slotId : Option String := none
  location : Option ItemPlacement := none
  upd : Option Int := none
deriving DecidableEq, Repr

instance : Inhabited Item := ⟨{ _id := "", _tpl := "" }⟩

/-- `SpawnpointTemplate`: the template fields the generator touches. -/
structure SpawnpointTemplate where
  Id : String
  IsAlwaysSpawn : Bool := false
  Root : String := ""
  Items : List Item := []
deriving DecidableEq, Repr

/-- `IStaticContainerData`: a static container instance with spawn probability. -/
structure IStaticContainerData where
  probability : Rat
  template : SpawnpointTemplate
deriving DecidableEq, Repr

/-- `IStaticForcedProps`: an item forced into a specific container. -/
structure IStaticForcedProps where
  containerId : String
  itemTpl : String
deriving DecidableEq, Repr

/-- One entry of `itemcountDistribution` in `IStaticLootDetails`. -/
structure ItemCountEntry where
  count : Nat
  relativeProbability : Rat
deriving DecidableEq, Repr

/-- One entry of `itemDistribution` in `IStaticLootDetails`. -/
structure ItemDistEntry where
  tpl : String
  relativeProbability : Rat
deriving DecidableEq, Repr

/-- `IStaticLootDetails`: per container-type loot tables from staticLoot.json. -/
structure IStaticLootDetails where
  itemcountDistribution : List ItemCountEntry
  itemDistribution : List ItemDistEntry
deriving DecidableEq, Repr

/-- `Spawnpoint` of `ILooseLoot`: itemDistribution pairs a composed key with a
relative probability. -/
structure Spawnpoint where
  locationId : String
  probability : Rat
  template : SpawnpointTemplate
  itemDistribution : List (String × Rat) := []
deriving DecidableEq, Repr

/-- `SpawnpointsForced` of `ILooseLoot`. -/
structure SpawnpointsForced where
  locationId : String
  probability : Rat
  template : SpawnpointTemplate
deriving DecidableEq, Repr

/-- `spawnpointCount` of `ILooseLoot`: parameters of a normal distribution. -/
structure SpawnpointCount where
  mean : Rat
  std : Rat
deriving DecidableEq, Repr

/-- `ILooseLoot`: the loose-loot table of one map. -/
structure ILooseLoot where
  spawnpointCount : SpawnpointCount
  spawnpointsForced : List SpawnpointsForced
  spawnpoints : List Spawnpoint
deriving DecidableEq, Repr

/-- `IContainerMinMax` of a containersGroups entry. -/
structure IContainerMinMax where
  minContainers : Nat
  maxContainers : Nat
deriving DecidableEq, Repr

/-- `IStaticContainer` (statics.json of a location): group size data plus the
groupId of every container id. -/
structure LocationStatics where
  containersGroups : List (String × IContainerMinMax)
  containers : List (String × String)
deriving DecidableEq, Repr

/-- `IContainerGroupCount` from the source file: candidate containers of one
group with their probabilities, and the chosen spawn count (`-1` before the
empty-group reroll). -/
structure IContainerGroupCount where
  containerIdsWithProbability : List (String × Rat)
  chosenCount : Int
deriving DecidableEq, Repr

/-- `containerRandomisationSettings` of `ILocationConfig`.  `maps` holds the
map ids whose Record value is `true` (a missing key and an explicit `false`
both make `!maps[locationId]` true in the source). -/
structure ContainerRandomisationSettings where
  enabled : Bool
  maps : List String
  containerGroupMinSizeMultiplier : Rat
  containerGroupMaxSizeMultiplier : Rat
  containerTypesToNotRandomise : List String
deriving DecidableEq, Repr

/-- The slice of `ILocationConfig` the generator reads.  JavaScript `Record`s
are association lists. -/
structure LocationConfig where
  containerRandomisationSettings : ContainerRandomisationSettings
  fitLootIntoContainerAttempts : Nat
  allowDuplicateItemsInStaticContainers : Bool
  staticLootMultiplier : List (String × Rat)
  looseLootMultiplier : List (String × Rat)
  looseLootBlacklist : List (String × List String)
  forcedLootSingleSpawnById : List (String × List String)
  minFillStaticMagazinePercent : Rat
  minFillLooseMagazinePercent : Rat
deriving DecidableEq, Repr

/-- Item template properties read by the generator (`_props`). -/
structure ItemTemplate where
  Width : Nat := 1
  Height : Nat := 1
  cellsV : Nat := 1
  cellsH : Nat := 1
  StackMinRandom : Nat := 1
  StackMaxRandom : Nat := 1
  ammoCaliber : String := ""
deriving DecidableEq, Repr

/-- A weapon default preset (`IPreset`): only `_items` is consumed. -/
structure Preset where
  _id : String := ""
  _name : String := ""
  _items : List Item := []
deriving DecidableEq, Repr

/-- Result of `ContainerHelper.findSlotForItem`. -/
structure FindSlotResult where
  success : Bool
  x : Nat := 0
  y : Nat := 0
  rotation : Bool := false
deriving DecidableEq, Repr

/-- The 2d occupancy grid of a container. -/
abbrev Grid := List (List Nat)

/-- Opaque static ammo distribution (`staticAmmo.json`), passed through to the
item helpers. -/
abbrev StaticAmmoDist := List (String × List String)

/-- `IContainerItem` from the source file. -/
structure IContainerItem where
  items : List Item
  width : Nat
  height : Nat
deriving DecidableEq, Repr

/-- Per-map static container tables (`db.loot.staticContainers[mapName]`). -/
structure StaticContainerDetails where
  staticWeapons : List SpawnpointTemplate
  staticContainers : List IStaticContainerData
  staticForced : List IStaticForcedProps
deriving DecidableEq, Repr

/-- The database tables the generator reads. -/
structure Db where
  staticContainers : List (String × StaticContainerDetails)
  staticLoot : List (String × IStaticLootDetails)
  locations : List (String × LocationStatics)
deriving DecidableEq, Repr

/-- `ILocationBase`: only `Id` and `Name` are read. -/
structure LocationBase where
  Id : String
  Name : String
deriving DecidableEq, Repr

/-- Modelled from the spec: the external collaborator interfaces the core
consumes (item-template lookup, 2d grid allocator, seasonal-event state,
preset lookup and re-parenting, magazine/ammo-box filling, item size,
localisation).  Their code is outside the repository slice, so they appear as
opaque function fields; theorems quantify over them. -/
structure Env where
  getItem : String → ItemTemplate
  isOfBaseclass : String → String → Bool
  findSlotForItem : Grid → Nat → Nat → FindSlotResult
  fillContainerMapWithItem : Grid → Nat → Nat → Nat → Nat → Bool → Grid
  seasonalEventEnabled : Bool
  seasonalItems : List String
  getDefaultPreset : String → Option Preset
  reparentPresets : Item → List Item → Except String (List Item)
  addCartridgesToAmmoBox : List Item → ItemTemplate → List Item
  fillMagazineWithRandomCartridge :
    List Item → ItemTemplate → StaticAmmoDist → Option String → Option Rat → List Item
  getItemSize : List Item → String → Nat × Nat
  findAndReturnChildrenAsItems : List Item → String → List Item
  getText : String → String

/-- Pass-local state: the log, the fresh-id counter of `ObjectId.generate`,
and the oracle streams of the random source. -/
structure St where
  logs : List (LogLevel × String) := []
  nextId : Nat := 0
  bools : List Bool := []
  nats : List Nat := []
  rats : List Rat := []

/-- Append one entry to the log. -/
def logAt (lvl : LogLevel) (msg : String) (s : St) : St :=
  { s with logs := s.logs ++ [(lvl, msg)] }

/-- `ObjectId.generate`: a fresh id per call, drawn from the pass-local
counter. -/
def generateId (s : St) : String × St :=
  ("gen" ++ toString s.nextId, { s with nextId := s.nextId + 1 })

/-- Consume the next boolean of the oracle (`false` when exhausted). -/
def nextBool (s : St) : Bool × St :=
  match s.bools with
  | [] => (false, s)
  | b :: r => (b, { s with bools := r })

/-- Consume the next natural of the oracle (`0` when exhausted). -/
def nextNat (s : St) : Nat × St :=
  match s.nats with
  | [] => (0, s)
  | n :: r => (n, { s with nats := r })

/-- Consume the next rational of the oracle (`0` when exhausted). -/
def nextRat (s : St) : Rat × St :=
  match s.rats with
  | [] => (0, s)
  | q :: r => (q, { s with rats := r })

/-- Modelled from the spec: `RandomUtil.getChance100` is a Bernoulli trial at
the given success percentage; the percentage only shapes the distribution, so
the outcome itself comes from the oracle stream. -/
def getChance100 (_chancePercent : Rat) (s : St) : Bool × St :=
  nextBool s

/-- Modelled from the spec: `RandomUtil.getInt` draws an integer uniformly
from `[lo, hi]`; the oracle natural selects the element of the range. -/
def getInt (lo hi : Int) (s : St) : Int × St :=
  let n := (nextNat s).1
  let s1 := (nextNat s).2
  (if lo ≤ hi then lo + (n : Int) % (hi - lo + 1) else lo, s1)

/-- Modelled from the spec: `RandomUtil.randn` samples a normal distribution;
the sample value comes from the oracle stream. -/
def randn (_mean _std : Rat) (s : St) : Rat × St :=
  nextRat s

/-- JavaScript `Math.round` (round half toward positive infinity). -/
def jsRound (q : Rat) : Int :=
  (q + 1 / 2).floor

/-- JavaScript `Record` / `Map` lookup on an association list. -/
def recGet? {β : Type} (m : List (String × β)) (k : String) : Option β :=
  (m.find? (fun p => p.1 == k)).map (fun p => p.2)

/-- JavaScript `Record` / `Map` assignment: an existing key keeps its position
and gets the new value, a new key is appended. -/
def recSet {β : Type} (m : List (String × β)) (k : String) (v : β) : List (String × β) :=
  match m with
  | [] => [(k, v)]
  | (k1, v1) :: rest => if k1 == k then (k1, v) :: rest else (k1, v1) :: recSet rest k v

/-- `ProbabilityObject` from `RandomUtil`: a key, a relative probability and
optional payload data. -/
structure ProbabilityObject (K V : Type) where
  key : K
  relativeProbability : Rat
  data : Option V := none
deriving Repr

/-- Modelled from the spec (weighted-probability sampling primitive):
`ProbabilityObjectArray.draw count replacement locked` draws `count` keys; the
weights only bias the distribution, so the picked index comes from the oracle
stream (reduced modulo the pool size).  Without replacement the picked entry
is removed from the pool - by position - unless its key is on the `locked`
list; an exhausted pool ends the draw early (capped, never an error). -/
def ProbabilityObjectArray.draw {K V : Type} [BEq K]
    (pool : List (ProbabilityObject K V)) (count : Nat) (replacement : Bool)
    (locked : List K) (s : St) : List K × St :=
  match count with
  | 0 => ([], s)
  | c + 1 =>
    match pool with
    | [] => ([], s)
    | hd :: tl =>
      let p := hd :: tl
      let n := (nextNat s).1
      let s1 := (nextNat s).2
      let i := n % p.length
      let k := (p.getD i hd).key
      let pool1 := if replacement || locked.contains k then p else p.eraseIdx i
      let rest := ProbabilityObjectArray.draw pool1 c replacement locked s1
      (k :: rest.1, rest.2)

/-- `ProbabilityObjectArray.data`: payload of the first entry with the key. -/
def ProbabilityObjectArray.dataOf {K V : Type} [BEq K]
    (pool : List (ProbabilityObject K V)) (k : K) : Option V :=
  (pool.find? (fun p => p.key == k)).bind (fun p => p.data)

/-- The three currency template ids of the `Money` enum. -/
def Money.ROUBLES : String := "5449016a4bdc2d6f028b456f"

/-- Dollar template id of the `Money` enum. -/
def Money.DOLLARS : String := "5696686a4bdc2da3298b456a"

/-- Euro template id of the `Money` enum. -/
def Money.EUROS : String := "569668774bdc2da2298b4568"

/-- `BaseClasses.WEAPON`. -/
def BaseClasses.WEAPON : String := "5422acb9af1c889c16000029"

/-- `BaseClasses.MONEY`. -/
def BaseClasses.MONEY : String := "543be5dd4bdc2deb348b4569"

/-- `BaseClasses.AMMO`. -/
def BaseClasses.AMMO : String := "5485a8684bdc2da71d8b4567"

/-- `BaseClasses.AMMO_BOX`. -/
def BaseClasses.AMMO_BOX : String := "543be5cb4bdc2deb348b4568"

/-- `BaseClasses.MAGAZINE`. -/
def BaseClasses.MAGAZINE : String := "5448bc234bdc2d3c308b4569"

/-- The `locklist` of `addLootToContainer`: currency template ids exempt from
the without-replacement removal. -/
def locklist : List String := [Money.ROUBLES, Money.DOLLARS, Money.EUROS]

/-- `template.Items[0]._tpl` with the JavaScript `undefined` dereference of an
empty `Items` array modelled as a default item (call sites that can actually
crash match on `Items` explicitly). -/
def firstTpl (t : SpawnpointTemplate) : String :=
  t.Items.headI._tpl

/-- `getRandomisableContainersOnMap` (source lines 205-209): containers with a
non-100% chance, not always-spawn, and not of an exempt container type. -/
def getRandomisableContainersOnMap (cfg : LocationConfig)
    (staticContainers : List IStaticContainerData) : List IStaticContainerData :=
  staticContainers.filter (fun x =>
    x.probability != 1 && !x.template.IsAlwaysSpawn &&
      !(cfg.containerRandomisationSettings.containerTypesToNotRandomise.contains
          (firstTpl x.template)))

/-- `getGuaranteedContainers` (source lines 216-219): 100% spawn rate, or
always-spawn, or a container type on the randomisation ignore list. -/
def getGuaranteedContainers (cfg : LocationConfig)
    (staticContainersOnMap : List IStaticContainerData) : List IStaticContainerData :=
  staticContainersOnMap.filter (fun x =>
    x.probability == 1 || x.template.IsAlwaysSpawn ||
      cfg.containerRandomisationSettings.containerTypesToNotRandomise.contains
        (firstTpl x.template))

/-- `getContainersByProbabilty` (source lines 227-245): when the chosen count
exceeds the pool, log a shortfall diagnostic and return the whole pool;
otherwise draw the chosen count from the weighted pool (the spec, section 4.4,
fixes this group draw as without replacement). -/
def getContainersByProbabilty (groupId : String) (containerData : IContainerGroupCount)
    (s : St) : List String × St :=
  let containerIds := containerData.containerIdsWithProbability.map (fun p => p.1)
  if containerData.chosenCount > (containerIds.length : Int) then
    (containerIds,
      logAt .debug ("Group: " ++ groupId ++ " wants " ++ toString containerData.chosenCount ++
        " containers but pool only has " ++ toString containerIds.length ++
        ", add what is available") s)
  else
    let containerDistribution := containerData.containerIdsWithProbability.map
      (fun p => ({ key := p.1, relativeProbability := p.2 } : ProbabilityObject String Unit))
    ProbabilityObjectArray.draw containerDistribution containerData.chosenCount.toNat false [] s

/-- First phase of `getGroupIdToContainerMappings` (source lines 258-271):
choose a spawn count per declared group. -/
def mappingInitLoop (cfg : LocationConfig) :
    List (String × IContainerMinMax) → List (String × IContainerGroupCount) → St →
    List (String × IContainerGroupCount) × St
  | [], mapping, s => (mapping, s)
  | (groupId, groupData) :: rest, mapping, s =>
    if (recGet? mapping groupId).isSome then mappingInitLoop cfg rest mapping s
    else
      let lo := jsRound ((groupData.minContainers : Rat) *
        cfg.containerRandomisationSettings.containerGroupMinSizeMultiplier)
      let hi := jsRound ((groupData.maxContainers : Rat) *
        cfg.containerRandomisationSettings.containerGroupMaxSizeMultiplier)
      let c := (getInt lo hi s).1
      let s1 := (getInt lo hi s).2
      mappingInitLoop cfg rest
        (recSet mapping groupId { containerIdsWithProbability := [], chosenCount := c }) s1

/-- Third phase of `getGroupIdToContainerMappings` (source lines 279-294): add
every sub-100% container to its group, keyed by groupId; a container missing
from statics.json is logged and skipped, and a groupId absent from `mapping`
makes the source assign into `undefined` - a TypeError. -/
def mappingFillLoop (statics : LocationStatics) :
    List IStaticContainerData → List (String × IContainerGroupCount) → St →
    Except String (List (String × IContainerGroupCount)) × St
  | [], mapping, s => (.ok mapping, s)
  | container :: rest, mapping, s =>
    match recGet? statics.containers container.template.Id with
    | none =>
      mappingFillLoop statics rest mapping
        (logAt .error ("Container " ++ container.template.Id ++
          " not found in statics.json, this is bad") s)
    | some groupId =>
      if container.probability == 1 then
        mappingFillLoop statics rest mapping
          (logAt .debug ("Container " ++ container.template.Id ++ " with group " ++ groupId ++
            " had 100% chance to spawn was picked as random container, skipping") s)
      else
        match recGet? mapping groupId with
        | none => (.error "TypeError: cannot add container to missing group", s)
        | some entry =>
          let pairs1 :=
            recSet entry.containerIdsWithProbability container.template.Id container.probability
          let entry1 := { entry with containerIdsWithProbability := pairs1 }
          mappingFillLoop statics rest (recSet mapping groupId entry1) s

/-- `getGroupIdToContainerMappings` (source lines 252-297). -/
def getGroupIdToContainerMappings (cfg : LocationConfig)
    (staticContainerGroupData : LocationStatics)
    (staticContainersOnMap : List IStaticContainerData) (s : St) :
    Except String (List (String × IContainerGroupCount)) × St :=
  let initRes := mappingInitLoop cfg staticContainerGroupData.containersGroups [] s
  let mapping1 := recSet initRes.1 "" { containerIdsWithProbability := [], chosenCount := -1 }
  mappingFillLoop staticContainerGroupData staticContainersOnMap mapping1 initRes.2

/-- The EDGE-CASE reroll for containers without a group (source lines
155-164): roll each container probability as an independent Bernoulli trial
and keep the successes. -/
def emptyGroupRerollLoop : List (String × Rat) → St → List (String × Rat) × St
  | [], s => ([], s)
  | (k, p) :: rest, s =>
    let b := (getChance100 (p * 100) s).1
    let s1 := (getChance100 (p * 100) s).2
    let keep := emptyGroupRerollLoop rest s1
    (if b then (k, p) :: keep.1 else keep.1, keep.2)

/-- The empty-group special case of `generateStaticContainers` (source lines
152-174): replace the candidate set by the Bernoulli successes and set the
chosen count to their number. -/
def emptyGroupReroll (data : IContainerGroupCount) (s : St) : IContainerGroupCount × St :=
  let pairs := (emptyGroupRerollLoop data.containerIdsWithProbability s).1
  let s1 := (emptyGroupRerollLoop data.containerIdsWithProbability s).2
  ({ containerIdsWithProbability := pairs, chosenCount := (pairs.length : Int) }, s1)

/-- `getContainerMapping` (source lines 389-400): a cellsV x cellsH zero grid. -/
def getContainerMapping (env : Env) (containerTpl : String) : Grid :=
  let containerTemplate := env.getItem containerTpl
  List.replicate containerTemplate.cellsV (List.replicate containerTemplate.cellsH 0)

/-- `getStaticLootMultiplerForLocation` (source lines 458-461); a missing map
key would be `undefined` in the source (propagating as NaN, which makes every
later count draw empty), modelled as a zero multiplier. -/
def getStaticLootMultiplerForLocation (cfg : LocationConfig) (location : String) : Rat :=
  (recGet? cfg.staticLootMultiplier location).getD 0

/-- `getLooseLootMultiplerForLocation` (source lines 453-456), same missing-key
convention as the static multiplier. -/
def getLooseLootMultiplerForLocation (cfg : LocationConfig) (location : String) : Rat :=
  (recGet? cfg.looseLootMultiplier location).getD 0

/-- `getWeightedCountOfContainerItems` (source lines 409-422): draw one count
from the itemcountDistribution weights and scale it by the per-map static loot
multiplier.  A container type missing from staticLoot.json dereferences
`undefined` in the source.  An empty distribution makes the bare `draw()[0]`
come back `undefined` (NaN downstream), modelled as a zero count. -/
def getWeightedCountOfContainerItems (cfg : LocationConfig) (containerTypeId : String)
    (staticLootDist : List (String × IStaticLootDetails)) (locationName : String) (s : St) :
    Except String Int × St :=
  match recGet? staticLootDist containerTypeId with
  | none => (.error "TypeError: no staticLoot entry for container type", s)
  | some details =>
    let itemCountArray := details.itemcountDistribution.map
      (fun e => ({ key := (e.count : Int), relativeProbability := e.relativeProbability } :
        ProbabilityObject Int Unit))
    let drawRes := ProbabilityObjectArray.draw itemCountArray 1 true [] s
    let ks := drawRes.1
    let s1 := drawRes.2
    match ks.head? with
    | none => (.ok 0, s1)
    | some c =>
      (.ok (jsRound (getStaticLootMultiplerForLocation cfg locationName * (c : Rat))), s1)

/-- `getPossibleLootItemsForContainer` (source lines 431-451): the weighted
pool of candidate item tpls, with seasonal items filtered out while no
seasonal event is active. -/
def getPossibleLootItemsForContainer (env : Env) (containerTypeId : String)
    (staticLootDist : List (String × IStaticLootDetails)) :
    Except String (List (ProbabilityObject String Unit)) :=
  match recGet? staticLootDist containerTypeId with
  | none => .error "TypeError: no staticLoot entry for container type"
  | some details =>
    .ok ((details.itemDistribution.filter (fun icd =>
        !(!env.seasonalEventEnabled && env.seasonalItems.contains icd.tpl))).map
      (fun icd => { key := icd.tpl, relativeProbability := icd.relativeProbability }))

/-- `reparentItemAndChildren` (source lines 707-723): give the base item a new
id and repoint every child whose parentId was the old base id. -/
def reparentItemAndChildren (itemWithChildren : List Item) (newId : String) : List Item :=
  match itemWithChildren with
  | [] => []
  | hd :: tl =>
    let oldId := hd._id
    ({ hd with _id := newId } :: tl).map (fun item =>
      if item.parentId == some oldId then { item with parentId := newId } else item)

/-- JavaScript `items.splice(items.indexOf(target), 1, ...repl)` for a target
known to be present: replace the first occurrence of `target` by `repl`. -/
def spliceReplaceFirst (xs : List Item) (target : Item) (repl : List Item) : List Item :=
  match xs with
  | [] => []
  | x :: rest => if x == target then repl ++ rest else x :: spliceReplaceFirst rest target repl

/-- `createStaticLootItem` (source lines 742-858): build an item (with
children) for a template id, dispatching on its base class.  The weapon branch
resolves the default preset; a failing preset re-parent logs and re-throws
(modelled as `Except.error`), a missing preset falls back to the bare weapon
root with a debug log. -/
def createStaticLootItem (cfg : LocationConfig) (env : Env) (tpl : String)
    (staticAmmoDist : StaticAmmoDist) (parentId : Option String) (s : St) :
    Except String IContainerItem × St :=
  let itemTemplate := env.getItem tpl
  let width := itemTemplate.Width
  let height := itemTemplate.Height
  let newId := (generateId s).1
  let s1 := (generateId s).2
  let pid : Option String := match parentId with
    | some p => if p == "" then none else some p
    | none => none
  let item0 : Item := { _id := newId, _tpl := tpl, parentId := pid }
  if env.isOfBaseclass tpl BaseClasses.MONEY || env.isOfBaseclass tpl BaseClasses.AMMO then
    let stackCount := (getInt (itemTemplate.StackMinRandom : Int)
      (itemTemplate.StackMaxRandom : Int) s1).1
    let s2 := (getInt (itemTemplate.StackMinRandom : Int)
      (itemTemplate.StackMaxRandom : Int) s1).2
    (.ok { items := [{ item0 with upd := some stackCount }], width := width, height := height },
      s2)
  else if env.isOfBaseclass tpl BaseClasses.WEAPON then
    let defaultPreset := env.getDefaultPreset tpl
    let afterPreset : Except String (List Item) × St :=
      match defaultPreset with
      | some preset =>
        match env.reparentPresets preset._items.headI preset._items with
        | .error e => (.error e, logAt .warning (env.getText "location-preset_not_found") s1)
        | .ok children => (.ok children, s1)
      | none =>
        (.ok [], logAt .debug ("createItem() No preset found for weapon: " ++ tpl) s1)
    match afterPreset with
    | (.error e, s2) => (.error e, s2)
    | (.ok children, s2) =>
      let rootItem := item0
      match (if 0 < children.length then env.reparentPresets rootItem children
             else .ok [item0]) with
      | .error e => (.error e, logAt .error (env.getText "location-unable_to_reparent_item") s2)
      | .ok items1 =>
        let items2 := match items1.find? (fun x => x.slotId == some "mod_magazine") with
          | none => items1
          | some magazine =>
            let magTemplate := env.getItem magazine._tpl
            let weaponTemplate := env.getItem tpl
            let magazineWithCartridges := env.fillMagazineWithRandomCartridge [magazine]
              magTemplate staticAmmoDist (some weaponTemplate.ammoCaliber) none
            spliceReplaceFirst items1 magazine magazineWithCartridges
        let size := env.getItemSize items2 rootItem._id
        (.ok { items := items2, width := size.1, height := size.2 }, s2)
  else if env.isOfBaseclass tpl BaseClasses.AMMO_BOX then
    (.ok { items := env.addCartridgesToAmmoBox [item0] itemTemplate,
           width := width, height := height }, s1)
  else if env.isOfBaseclass tpl BaseClasses.MAGAZINE then
    let magazineWithCartridges := env.fillMagazineWithRandomCartridge [item0] itemTemplate
      staticAmmoDist none (some (cfg.minFillStaticMagazinePercent / 100))
    (.ok { items := magazineWithCartridges, width := width, height := height }, s1)
  else
    (.ok { items := [item0], width := width, height := height }, s1)

/-- `items[0].slotId = "main"; items[0].location = ...` before pushing a
placed item group into the container. -/
def setHeadSlotLoc (items : List Item) (x y r : Nat) : List Item :=
  match items with
  | [] => []
  | i :: rest =>
    { i with slotId := some "main",
             location := some ({ x := x, y := y, r := r } : ItemPlacement) } :: rest

/-- The fill loop of `addLootToContainer` (source lines 345-379): build each
chosen item, look for a grid slot, skip the item on a failed placement while
counting failures, and stop - dropping the rest - when a placement fails with
the cumulative failure count already at the configured budget. -/
def addLootLoop (cfg : LocationConfig) (env : Env) (staticAmmoDist : StaticAmmoDist)
    (parentId : String) :
    List String → Grid → Nat → List Item → St → Except String (List Item) × St
  | [], _, _, items, s => (.ok items, s)
  | tplToAdd :: rest, containerMap, failedToFitCount, items, s =>
    match createStaticLootItem cfg env tplToAdd staticAmmoDist (some parentId) s with
    | (.error e, s1) => (.error e, s1)
    | (.ok chosenItemWithChildren, s1) =>
      let width := chosenItemWithChildren.width
      let height := chosenItemWithChildren.height
      let result := env.findSlotForItem containerMap width height
      if result.success = false then
        if cfg.fitLootIntoContainerAttempts ≤ failedToFitCount then
          (.ok items, s1)
        else
          addLootLoop cfg env staticAmmoDist parentId rest containerMap
            (failedToFitCount + 1) items s1
      else
        let containerMap1 := env.fillContainerMapWithItem containerMap result.x result.y
          width height result.rotation
        let rotNum := if result.rotation then 1 else 0
        let placed := setHeadSlotLoc chosenItemWithChildren.items result.x result.y rotNum
        addLootLoop cfg env staticAmmoDist parentId rest containerMap1 failedToFitCount
          (items ++ placed) s1

/-- `addLootToContainer` (source lines 309-382): give the container a fresh
root id, choose an item count and item tpls from the weighted pools, prepend
the forced tpls, and run the fill loop.  An empty `Items` array or a missing
forced-loot table dereferences `undefined` in the source. -/
def addLootToContainer (cfg : LocationConfig) (env : Env)
    (staticContainer : IStaticContainerData)
    (staticForced : Option (List IStaticForcedProps))
    (staticLootDist : List (String × IStaticLootDetails))
    (staticAmmoDist : StaticAmmoDist) (locationName : String) (s : St) :
    Except String IStaticContainerData × St :=
  let container := staticContainer
  match container.template.Items with
  | [] => (.error "TypeError: container template has no items", s)
  | item0 :: restItems =>
    let containerTpl := item0._tpl
    let parentId := (generateId s).1
    let s1 := (generateId s).2
    let containerMap := getContainerMapping env containerTpl
    match getWeightedCountOfContainerItems cfg containerTpl staticLootDist locationName s1 with
    | (.error e, s2) => (.error e, s2)
    | (.ok itemCountToAdd, s2) =>
      match getPossibleLootItemsForContainer env containerTpl staticLootDist with
      | .error e => (.error e, s2)
      | .ok containerLootPool =>
        match staticForced with
        | none => (.error "TypeError: forced static data is undefined", s2)
        | some forced =>
          let tplsForced := (forced.filter
            (fun x => x.containerId == container.template.Id)).map (fun x => x.itemTpl)
          let drawRes := ProbabilityObjectArray.draw containerLootPool
            itemCountToAdd.toNat cfg.allowDuplicateItemsInStaticContainers locklist s2
          let chosenTpls := drawRes.1
          let s3 := drawRes.2
          let tplsToAddToContainer := tplsForced ++ chosenTpls
          let startItems := { item0 with _id := parentId } :: restItems
          match addLootLoop cfg env staticAmmoDist parentId tplsToAddToContainer containerMap
            0 startItems s3 with
          | (.error e, s4) => (.error e, s4)
          | (.ok items1, s4) =>
            (.ok { container with template :=
                { container.template with Root := parentId, Items := items1 } }, s4)

/-- The two identical `for`-loops of `generateStaticContainers` that populate a
container list through `addLootToContainer` and collect the templates (source
lines 110-114 and 122-126). -/
def populateContainers (cfg : LocationConfig) (env : Env)
    (staticForced : Option (List IStaticForcedProps))
    (staticLootDist : List (String × IStaticLootDetails))
    (staticAmmoDist : StaticAmmoDist) (locationId : String) :
    List IStaticContainerData → St → Except String (List SpawnpointTemplate) × St
  | [], s => (.ok [], s)
  | container :: rest, s =>
    match addLootToContainer cfg env container staticForced staticLootDist staticAmmoDist
      locationId s with
    | (.error e, s1) => (.error e, s1)
    | (.ok containerWithLoot, s1) =>
      match populateContainers cfg env staticForced staticLootDist staticAmmoDist locationId
        rest s1 with
      | (.error e, s2) => (.error e, s2)
      | (.ok templates, s2) => (.ok (containerWithLoot.template :: templates), s2)

/-- The inner loop over the ids chosen for one group (source lines 178-192):
look each id up among the randomisable containers (a miss is logged and
skipped), add loot and collect the template. -/
def addChosenContainers (cfg : LocationConfig) (env : Env)
    (staticRandomisableContainersOnMap : List IStaticContainerData)
    (staticForced : Option (List IStaticForcedProps))
    (staticLootDist : List (String × IStaticLootDetails))
    (staticAmmoDist : StaticAmmoDist) (locationId : String) :
    List String → St → Except String (List SpawnpointTemplate) × St
  | [], s => (.ok [], s)
  | chosenContainerId :: rest, s =>
    match staticRandomisableContainersOnMap.find?
      (fun x => x.template.Id == chosenContainerId) with
    | none =>
      addChosenContainers cfg env staticRandomisableContainersOnMap staticForced staticLootDist
        staticAmmoDist locationId rest
        (logAt .debug ("Container: " ++ chosenContainerId ++
          " not found in staticRandomisableContainersOnMap, this is bad") s)
    | some containerObject =>
      match addLootToContainer cfg env containerObject staticForced staticLootDist
        staticAmmoDist locationId s with
      | (.error e, s1) => (.error e, s1)
      | (.ok containerWithLoot, s1) =>
        match addChosenContainers cfg env staticRandomisableContainersOnMap staticForced
          staticLootDist staticAmmoDist locationId rest s1 with
        | (.error e, s2) => (.error e, s2)
        | (.ok templates, s2) => (.ok (containerWithLoot.template :: templates), s2)

/-- The group loop of `generateStaticContainers` (source lines 136-193): skip
empty groups, reroll the synthetic empty-string group per container, choose
ids by probability and populate them. -/
def processGroups (cfg : LocationConfig) (env : Env)
    (staticRandomisableContainersOnMap : List IStaticContainerData)
    (staticForced : Option (List IStaticForcedProps))
    (staticLootDist : List (String × IStaticLootDetails))
    (staticAmmoDist : StaticAmmoDist) (locationId : String) :
    List (String × IContainerGroupCount) → St → Except String (List SpawnpointTemplate) × St
  | [], s => (.ok [], s)
  | (groupId, data) :: rest, s =>
    let recurse := fun (acc : List SpawnpointTemplate) (s1 : St) =>
      match processGroups cfg env staticRandomisableContainersOnMap staticForced staticLootDist
        staticAmmoDist locationId rest s1 with
      | (.error e, s2) => (.error e, s2)
      | (.ok templates, s2) => (.ok (acc ++ templates), s2)
    if data.chosenCount == 0 then recurse [] s
    else if data.containerIdsWithProbability.length == 0 then
      recurse []
        (logAt .debug ("Group: " ++ groupId ++
          " has no containers with < 100% spawn chance to choose from, skipping") s)
    else if groupId == "" then
      let rerollRes := emptyGroupReroll data s
      let data1 := rerollRes.1
      let s1 := rerollRes.2
      if data1.chosenCount == 0 then recurse [] s1
      else
        let chooseRes := getContainersByProbabilty groupId data1 s1
        match addChosenContainers cfg env staticRandomisableContainersOnMap staticForced
          staticLootDist staticAmmoDist locationId chooseRes.1 chooseRes.2 with
        | (.error e, s3) => (.error e, s3)
        | (.ok templates, s3) => recurse templates s3
    else
      let chooseRes := getContainersByProbabilty groupId data s
      match addChosenContainers cfg env staticRandomisableContainersOnMap staticForced
        staticLootDist staticAmmoDist locationId chooseRes.1 chooseRes.2 with
      | (.error e, s2) => (.error e, s2)
      | (.ok templates, s2) => recurse templates s2

/-- `generateStaticContainers` (source lines 71-198).  Missing per-map tables
are logged as errors; the static weapons fall back to an empty list
(`?? []`), but a missing static container table is then passed (as
`undefined`) into `getRandomisableContainersOnMap`, whose `.filter`
dereference raises a TypeError. -/
def generateStaticContainers (cfg : LocationConfig) (env : Env) (db : Db)
    (locationBase : LocationBase) (staticAmmoDist : StaticAmmoDist) (s : St) :
    Except String (List SpawnpointTemplate) × St :=
  let locationId := locationBase.Id.toLower
  let staticWeaponsOnMap := (recGet? db.staticContainers locationBase.Name).map
    (fun d => d.staticWeapons)
  let s1 := if staticWeaponsOnMap.isNone then
    logAt .error ("Unable to find static weapon data for map: " ++ locationBase.Name) s
    else s
  let result0 := staticWeaponsOnMap.getD []
  let allStaticContainersOnMap := (recGet? db.staticContainers locationBase.Name).map
    (fun d => d.staticContainers)
  let s2 := if allStaticContainersOnMap.isNone then
    logAt .error ("Unable to find static container data for map: " ++ locationBase.Name) s1
    else s1
  match allStaticContainersOnMap with
  | none => (.error "TypeError: cannot filter undefined static container data", s2)
  | some allStatic =>
    let staticRandomisableContainersOnMap := getRandomisableContainersOnMap cfg allStatic
    let staticForcedOnMap := (recGet? db.staticContainers locationBase.Name).map
      (fun d => d.staticForced)
    let s3 := if staticForcedOnMap.isNone then
      logAt .error ("Unable to find forced static data for map: " ++ locationBase.Name) s2
      else s2
    let staticLootDist := db.staticLoot
    let guaranteedContainers := getGuaranteedContainers cfg allStatic
    match populateContainers cfg env staticForcedOnMap staticLootDist staticAmmoDist locationId
      guaranteedContainers s3 with
    | (.error e, s4) => (.error e, s4)
    | (.ok guaranteedTemplates, s4) =>
      let s5 := logAt .success ("Added " ++ toString guaranteedContainers.length ++
        " guaranteed containers") s4
      if !cfg.containerRandomisationSettings.enabled ||
          !cfg.containerRandomisationSettings.maps.contains locationId then
        let s6 := logAt .debug ("Container randomisation disabled, Adding " ++
          toString staticRandomisableContainersOnMap.length ++ " containers to " ++
          locationBase.Name) s5
        match populateContainers cfg env staticForcedOnMap staticLootDist staticAmmoDist
          locationId staticRandomisableContainersOnMap s6 with
        | (.error e, s7) => (.error e, s7)
        | (.ok randomisableTemplates, s7) =>
          (.ok (result0 ++ guaranteedTemplates ++ randomisableTemplates), s7)
      else
        match recGet? db.locations locationId with
        | none => (.error "TypeError: no location entry for map statics", s5)
        | some staticContainerGroupData =>
          match getGroupIdToContainerMappings cfg staticContainerGroupData
            staticRandomisableContainersOnMap s5 with
          | (.error e, s6) => (.error e, s6)
          | (.ok mapping, s6) =>
            match processGroups cfg env staticRandomisableContainersOnMap staticForcedOnMap
              staticLootDist staticAmmoDist locationId mapping s6 with
            | (.error e, s7) => (.error e, s7)
            | (.ok groupTemplates, s7) =>
              (.ok (result0 ++ guaranteedTemplates ++ groupTemplates),
                logAt .success (env.getText "location-containers_generated_success") s7)

/-- `lootItem.Root = generate(); lootItem.Items[0]._id = lootItem.Root` on a
forced spawn template; an empty `Items` array dereferences `undefined`. -/
def rerootTemplate (t : SpawnpointTemplate) (s : St) :
    Except String SpawnpointTemplate × St :=
  let rootId := (generateId s).1
  let s1 := (generateId s).2
  match t.Items with
  | [] => (.error "TypeError: template has no items", s1)
  | i0 :: rest =>
    (.ok { t with Root := rootId, Items := { i0 with _id := rootId } :: rest }, s1)

/-- Inner loop of the single-spawn handling of `addForcedLoot` (source lines
597-604): emit the one chosen spawn position of a forced template id. -/
def forcedSingleInner (items : List SpawnpointsForced) :
    List String → St → Except String (List SpawnpointTemplate) × St
  | [], s => (.ok [], s)
  | spawnPointLocationId :: rest, s =>
    match items.find? (fun x => x.locationId == spawnPointLocationId) with
    | none => (.error "TypeError: chosen forced spawn position not found", s)
    | some itemToAdd =>
      match rerootTemplate itemToAdd.template s with
      | (.error e, s1) => (.error e, s1)
      | (.ok lootItem, s1) =>
        match forcedSingleInner items rest s1 with
        | (.error e, s2) => (.error e, s2)
        | (.ok more, s2) => (.ok (lootItem :: more), s2)

/-- Outer loop of the single-spawn handling of `addForcedLoot` (source lines
576-605): for each template id on the single-spawn override list, draw one of
its forced spawn positions by probability. -/
def forcedSingleLoop (forcedSpawnPoints : List SpawnpointsForced) (locationName : String) :
    List String → St → Except String (List SpawnpointTemplate) × St
  | [], s => (.ok [], s)
  | itemTpl :: rest, s =>
    let items := forcedSpawnPoints.filter (fun x => firstTpl x.template == itemTpl)
    if items.length == 0 then
      forcedSingleLoop forcedSpawnPoints locationName rest
        (logAt .debug ("Unable to adjust loot item " ++ itemTpl ++
          " as it does not exist inside " ++ locationName ++ " forced loot.") s)
    else
      let spawnpointArray := items.map (fun si =>
        ({ key := si.locationId, relativeProbability := si.probability, data := some si } :
          ProbabilityObject String SpawnpointsForced))
      let drawRes := ProbabilityObjectArray.draw spawnpointArray 1 false [] s
      match forcedSingleInner items drawRes.1 drawRes.2 with
      | (.error e, s2) => (.error e, s2)
      | (.ok emitted, s2) =>
        match forcedSingleLoop forcedSpawnPoints locationName rest s2 with
        | (.error e, s3) => (.error e, s3)
        | (.ok more, s3) => (.ok (emitted ++ more), s3)

/-- Remainder loop of `addForcedLoot` (source lines 611-629): emit every
forced spawn point not handled by the single-spawn list, minus inactive
seasonal items. -/
def forcedRemainderLoop (env : Env) (singles : Option (List String)) :
    List SpawnpointsForced → St → Except String (List SpawnpointTemplate) × St
  | [], s => (.ok [], s)
  | forcedLootItem :: rest, s =>
    if (singles.getD []).contains (firstTpl forcedLootItem.template) then
      forcedRemainderLoop env singles rest s
    else if !env.seasonalEventEnabled &&
        env.seasonalItems.contains (firstTpl forcedLootItem.template) then
      forcedRemainderLoop env singles rest s
    else
      match rerootTemplate forcedLootItem.template s with
      | (.error e, s1) => (.error e, s1)
      | (.ok li, s1) =>
        match forcedRemainderLoop env singles rest s1 with
        | (.error e, s2) => (.error e, s2)
        | (.ok more, s2) => (.ok (li :: more), s2)

/-- `addForcedLoot` (source lines 570-630). -/
def addForcedLoot (cfg : LocationConfig) (env : Env)
    (forcedSpawnPoints : List SpawnpointsForced) (locationName : String) (s : St) :
    Except String (List SpawnpointTemplate) × St :=
  let lootToForceSingleAmountOnMap := recGet? cfg.forcedLootSingleSpawnById locationName
  let singleRes : Except String (List SpawnpointTemplate) × St :=
    match lootToForceSingleAmountOnMap with
    | none => (.ok [], s)
    | some tpls => forcedSingleLoop forcedSpawnPoints locationName tpls s
  match singleRes with
  | (.error e, s1) => (.error e, s1)
  | (.ok singleLoot, s1) =>
    match forcedRemainderLoop env lootToForceSingleAmountOnMap forcedSpawnPoints s1 with
    | (.error e, s2) => (.error e, s2)
    | (.ok remainderLoot, s2) => (.ok (singleLoot ++ remainderLoot), s2)

/-- The classification loop of `generateDynamicLoot` (source lines 494-512):
skip blacklisted points (debug log), divert 100%-probability points to the
guaranteed list, and push the rest into the weighted pool. -/
def classifyLoop (blacklistedPoints : List String) :
    List Spawnpoint → St →
    (List Spawnpoint × List (ProbabilityObject String Spawnpoint)) × St
  | [], s => (([], []), s)
  | spawnpoint :: rest, s =>
    if blacklistedPoints.contains spawnpoint.template.Id then
      classifyLoop blacklistedPoints rest
        (logAt .debug ("Ignoring loose loot location: " ++ spawnpoint.template.Id) s)
    else if spawnpoint.probability == 1 then
      let r := classifyLoop blacklistedPoints rest s
      ((spawnpoint :: r.1.1, r.1.2), r.2)
    else
      let r := classifyLoop blacklistedPoints rest s
      let po : ProbabilityObject String Spawnpoint :=
        { key := spawnpoint.template.Id, relativeProbability := spawnpoint.probability,
          data := some spawnpoint }
      ((r.1.1, po :: r.1.2), r.2)

/-- The de-duplication `[...new Map(chosen.map(x => [x.locationId, x])).values()]`
(source line 524): one spawn point per locationId, last write wins, first
insertion fixes the position. -/
def dedupByLocationId (xs : List Spawnpoint) : List Spawnpoint :=
  (xs.foldl (fun m x => recSet m x.locationId x) []).map (fun p => p.2)

/-- Look every drawn key up in the pool (`spawnpointArray.data(si)`, source
lines 518-521); a key outside the pool would push `undefined` whose later
dereference is a TypeError. -/
def lookupDrawn (pool : List (ProbabilityObject String Spawnpoint)) :
    List String → Except String (List Spawnpoint)
  | [] => .ok []
  | k :: rest =>
    match ProbabilityObjectArray.dataOf pool k with
    | none => .error "TypeError: drawn spawn point key not in pool"
    | some sp =>
      match lookupDrawn pool rest with
      | .error e => .error e
      | .ok more => .ok (sp :: more)

/-- Lines 488-529 of `generateDynamicLoot`: classify spawn points, draw up to
the desired count from the probabilistic pool without replacement, prepend all
guaranteed points, de-duplicate by locationId and log any shortfall. -/
def chooseSpawnpoints (cfg : LocationConfig) (env : Env) (dynamicLootDist : ILooseLoot)
    (locationName : String) (desiredSpawnpointCount : Int) (s : St) :
    Except String (List Spawnpoint) × St :=
  let blacklistedPoints := (recGet? cfg.looseLootBlacklist locationName).getD []
  let classified := classifyLoop blacklistedPoints dynamicLootDist.spawnpoints s
  let guaranteedLoosePoints := classified.1.1
  let spawnpointArray := classified.1.2
  let s1 := classified.2
  let drawRes := ProbabilityObjectArray.draw spawnpointArray
    desiredSpawnpointCount.toNat false [] s1
  let drawnKeys := drawRes.1
  let s2 := drawRes.2
  match lookupDrawn spawnpointArray drawnKeys with
  | .error e => (.error e, s2)
  | .ok drawnPoints =>
    let chosenSpawnpoints := dedupByLocationId (guaranteedLoosePoints ++ drawnPoints)
    let numberTooManyRequested := desiredSpawnpointCount - (chosenSpawnpoints.length : Int)
    let s3 := if 0 < numberTooManyRequested then
      logAt .debug (env.getText "location-spawn_point_count_requested_vs_found") s2
      else s2
    (.ok chosenSpawnpoints, s3)

/-- The weighted item pool of one spawn point (source lines 536-548): skip
inactive seasonal items; the seasonal check dereferences the item looked up by
composed key, so a dangling key is a TypeError - but only while no seasonal
event is active, thanks to `&&` short-circuiting. -/
def buildItemArray (env : Env) (spawnPoint : Spawnpoint) :
    Except String (List (ProbabilityObject String Unit)) :=
  spawnPoint.itemDistribution.foldr
    (fun itemDist acc =>
      match acc with
      | .error e => .error e
      | .ok pool =>
        if env.seasonalEventEnabled then
          .ok (({ key := itemDist.1, relativeProbability := itemDist.2 } :
            ProbabilityObject String Unit) :: pool)
        else
          match spawnPoint.template.Items.find? (fun x => x._id == itemDist.1) with
          | none => .error "TypeError: composed key item missing from template"
          | some it =>
            if env.seasonalItems.contains it._tpl then .ok pool
            else .ok (({ key := itemDist.1, relativeProbability := itemDist.2 } :
              ProbabilityObject String Unit) :: pool))
    (.ok [])

/-- `createDynamicLootItem` (source lines 639-700): build the item (with
children) for the composed key chosen at a spawn point. -/
def createDynamicLootItem (cfg : LocationConfig) (env : Env) (chosenComposedKey : String)
    (spawnPoint : Spawnpoint) (staticAmmoDist : StaticAmmoDist) (s : St) :
    Except String IContainerItem × St :=
  match spawnPoint.template.Items.find? (fun x => x._id == chosenComposedKey) with
  | none => (.error "TypeError: chosen item not found in spawn point template", s)
  | some chosenItem =>
    let chosenTpl := chosenItem._tpl
    let afterBranch : Except String (List Item) × St :=
      if env.isOfBaseclass chosenTpl BaseClasses.MONEY ||
          env.isOfBaseclass chosenTpl BaseClasses.AMMO then
        let itemTemplate := env.getItem chosenTpl
        let newId := (generateId s).1
        let s1 := (generateId s).2
        let stackCount := (getInt (itemTemplate.StackMinRandom : Int)
          (itemTemplate.StackMaxRandom : Int) s1).1
        let s2 := (getInt (itemTemplate.StackMinRandom : Int)
          (itemTemplate.StackMaxRandom : Int) s1).2
        (.ok [{ _id := newId, _tpl := chosenTpl, upd := some stackCount }], s2)
      else if env.isOfBaseclass chosenTpl BaseClasses.AMMO_BOX then
        let ammoBoxTemplate := env.getItem chosenTpl
        let newId := (generateId s).1
        let s1 := (generateId s).2
        (.ok (env.addCartridgesToAmmoBox [{ _id := newId, _tpl := chosenTpl }] ammoBoxTemplate),
          s1)
      else if env.isOfBaseclass chosenTpl BaseClasses.MAGAZINE then
        let magazineTemplate := env.getItem chosenTpl
        let newId := (generateId s).1
        let s1 := (generateId s).2
        (.ok (env.fillMagazineWithRandomCartridge [{ _id := newId, _tpl := chosenTpl }]
          magazineTemplate staticAmmoDist none (some (cfg.minFillLooseMagazinePercent / 100))),
          s1)
      else
        let itemWithChildren := env.findAndReturnChildrenAsItems spawnPoint.template.Items
          chosenItem._id
        match itemWithChildren with
        | [] => (.error "TypeError: cannot reparent an empty item array", s)
        | _ :: _ =>
          let newId := (generateId s).1
          let s1 := (generateId s).2
          (.ok (reparentItemAndChildren itemWithChildren newId), s1)
    match afterBranch with
    | (.error e, s1) => (.error e, s1)
    | (.ok itemWithMods, s1) =>
      match itemWithMods.head? with
      | none => (.error "TypeError: built item array is empty", s1)
      | some rootOfBuilt =>
        let size := env.getItemSize itemWithMods rootOfBuilt._id
        (.ok { items := itemWithMods, width := size.1, height := size.2 }, s1)

/-- The per-spawn-point loop of `generateDynamicLoot` (source lines 532-559):
draw one composed key from the point's weighted item pool, build its
composition, rewrite the template root/items and emit the template. -/
def spawnpointLoop (cfg : LocationConfig) (env : Env) (staticAmmoDist : StaticAmmoDist) :
    List Spawnpoint → St → Except String (List SpawnpointTemplate) × St
  | [], s => (.ok [], s)
  | spawnPoint :: rest, s =>
    match buildItemArray env spawnPoint with
    | .error e => (.error e, s)
    | .ok itemArray =>
      let drawRes := ProbabilityObjectArray.draw itemArray 1 true [] s
      let ks := drawRes.1
      let s1 := drawRes.2
      match ks.head? with
      | none => (.error "TypeError: no item key drawn for spawn point", s1)
      | some chosenComposedKey =>
        match createDynamicLootItem cfg env chosenComposedKey spawnPoint staticAmmoDist s1 with
        | (.error e, s2) => (.error e, s2)
        | (.ok createItemResult, s2) =>
          match createItemResult.items.head? with
          | none => (.error "TypeError: created item array is empty", s2)
          | some rootOfBuilt =>
            let template1 := { spawnPoint.template with
              Root := rootOfBuilt._id, Items := createItemResult.items }
            match spawnpointLoop cfg env staticAmmoDist rest s2 with
            | (.error e, s3) => (.error e, s3)
            | (.ok more, s3) => (.ok (template1 :: more), s3)

/-- `generateDynamicLoot` (source lines 470-562): forced loot first, then the
chosen spawn points populated one item each. -/
def generateDynamicLoot (cfg : LocationConfig) (env : Env) (dynamicLootDist : ILooseLoot)
    (staticAmmoDist : StaticAmmoDist) (locationName : String) (s : St) :
    Except String (List SpawnpointTemplate) × St :=
  match addForcedLoot cfg env dynamicLootDist.spawnpointsForced locationName s with
  | (.error e, s1) => (.error e, s1)
  | (.ok forcedLoot, s1) =>
    let randRes := randn dynamicLootDist.spawnpointCount.mean
      dynamicLootDist.spawnpointCount.std s1
    let sample := randRes.1
    let s2 := randRes.2
    let desiredSpawnpointCount :=
      jsRound (getLooseLootMultiplerForLocation cfg locationName * sample)
    match chooseSpawnpoints cfg env dynamicLootDist locationName desiredSpawnpointCount s2 with
    | (.error e, s3) => (.error e, s3)
    | (.ok chosenSpawnpoints, s3) =>
      match spawnpointLoop cfg env staticAmmoDist chosenSpawnpoints s3 with
      | (.error e, s4) => (.error e, s4)
      | (.ok pointLoot, s4) => (.ok (forcedLoot ++ pointLoot), s4)

/-! ## General lemmas about the modelled collaborators -/

theorem perm_get_cons_eraseIdx {α : Type} (l : List α) (i : Nat) (h : i < l.length) :
    l.Perm (l[i] :: l.eraseIdx i) := by
  conv_lhs => rw [← List.take_append_drop i l, List.drop_eq_getElem_cons h]
  rw [List.eraseIdx_eq_take_drop_succ]
  exact List.perm_middle

/-! ## C9: the guaranteed / randomisable predicates partition the containers -/

/-- C9.  `getGuaranteedContainers` and `getRandomisableContainersOnMap`
partition their input: every container occurrence of the input list is kept by
exactly one of the two filters, because their predicates are exact logical
negations (probability = 1, or always-spawn, or exempt type - versus none of
those). -/
theorem count_filter_add_count_filter_not {α : Type} [DecidableEq α] (p : α → Bool)
    (l : List α) (a : α) :
    (l.filter p).count a + (l.filter (fun x => !(p x))).count a = l.count a := by
  induction l with
  | nil => simp
  | cons x t ih =>
    rw [List.filter_cons, List.filter_cons]
    by_cases hpx : p x = true
    · rw [if_pos hpx, if_neg (by simp [hpx]), List.count_cons, List.count_cons]
      omega
    · rw [if_neg hpx, if_pos (by simp [Bool.not_eq_true] at hpx; simp [hpx]),
        List.count_cons, List.count_cons]
      omega

theorem guaranteed_randomisable_partition (cfg : LocationConfig)
    (xs : List IStaticContainerData) (c : IStaticContainerData) :
    (getGuaranteedContainers cfg xs).count c
      + (getRandomisableContainersOnMap cfg xs).count c = xs.count c := by
  have hbool : ∀ a b c : Bool, ((!a) && !b && !c) = !(a || b || c) := by decide
  have hpred : ∀ y : IStaticContainerData,
      (y.probability != 1 && !y.template.IsAlwaysSpawn &&
        !(cfg.containerRandomisationSettings.containerTypesToNotRandomise.contains
            (firstTpl y.template)))
      = !(y.probability == 1 || y.template.IsAlwaysSpawn ||
          cfg.containerRandomisationSettings.containerTypesToNotRandomise.contains
            (firstTpl y.template)) :=
    fun y => hbool (y.probability == 1) y.template.IsAlwaysSpawn
      (cfg.containerRandomisationSettings.containerTypesToNotRandomise.contains
        (firstTpl y.template))
  unfold getGuaranteedContainers getRandomisableContainersOnMap
  rw [List.filter_congr (fun y _ => hpred y)]
  exact count_filter_add_count_filter_not _ xs c

/-! ## C8: pool undersupply in getContainersByProbabilty -/

/-- C8.  When the chosen target count exceeds the number of candidate
containers of the group, `getContainersByProbabilty` returns the whole pool of
candidate ids (each exactly once when the pool keys are distinct, which holds
for pools built by Record assignment), appends one debug shortfall diagnostic
to the log, and returns normally - the function is total, no error is
raised. -/
theorem getContainersByProbabilty_undersupply (groupId : String)
    (data : IContainerGroupCount) (s : St)
    (h : (data.containerIdsWithProbability.length : Int) < data.chosenCount) :
    (getContainersByProbabilty groupId data s).1
        = data.containerIdsWithProbability.map (fun p => p.1)
    ∧ ((data.containerIdsWithProbability.map (fun p => p.1)).Nodup →
        (getContainersByProbabilty groupId data s).1.Nodup)
    ∧ ∃ msg, (getContainersByProbabilty groupId data s).2.logs
        = s.logs ++ [(LogLevel.debug, msg)] := by
  have hc : data.chosenCount >
      (((data.containerIdsWithProbability.map (fun p => p.1)).length : Nat) : Int) := by
    simpa using h
  simp only [getContainersByProbabilty]
  rw [if_pos hc]
  refine ⟨rfl, fun hn => hn,
    "Group: " ++ groupId ++ " wants " ++ toString data.chosenCount ++
      " containers but pool only has " ++
      toString (data.containerIdsWithProbability.map (fun p => p.1)).length ++
      ", add what is available", ?_⟩
  simp [logAt]

/-! ## C2: a missing static container table raises instead of continuing -/

/-- C2 (code bug).  When the database has no static-container entry for the
requested map, `generateStaticContainers` does log the intended
content-data-missing error, but then hands the missing (`undefined`) container
list to `getRandomisableContainersOnMap`, whose `.filter` dereference raises a
TypeError: the pass aborts with an error instead of continuing with an empty
substitute list as the specification describes. -/
theorem generateStaticContainers_missingTable (cfg : LocationConfig) (env : Env) (db : Db)
    (lb : LocationBase) (ammo : StaticAmmoDist) (s : St)
    (h : recGet? db.staticContainers lb.Name = none) :
    ∃ e s1, generateStaticContainers cfg env db lb ammo s = (.error e, s1) ∧
      (LogLevel.error, "Unable to find static container data for map: " ++ lb.Name)
        ∈ s1.logs := by
  refine ⟨"TypeError: cannot filter undefined static container data",
    logAt .error ("Unable to find static container data for map: " ++ lb.Name)
      (logAt .error ("Unable to find static weapon data for map: " ++ lb.Name) s), ?_, ?_⟩
  · simp [generateStaticContainers, h, logAt]
  · simp [logAt]

/-! ## Draw lemmas: duplicate lock and full-pool permutation -/

theorem perm_getD_cons_eraseIdx {α : Type} (l : List α) (i : Nat) (d : α)
    (h : i < l.length) : l.Perm (l.getD i d :: l.eraseIdx i) := by
  rw [List.getD_eq_getElem l d h]
  exact perm_get_cons_eraseIdx l i h

theorem draw_count_le {K V : Type} [DecidableEq K] (locked : List K) (k : K)
    (hk : locked.contains k = false) :
    ∀ (count : Nat) (pool : List (ProbabilityObject K V)) (s : St),
      (ProbabilityObjectArray.draw pool count false locked s).1.count k ≤
        (pool.map (fun p => p.key)).count k := by
  intro count
  induction count with
  | zero => intro pool s; simp [ProbabilityObjectArray.draw]
  | succ c ih =>
    intro pool s
    match pool with
    | [] => simp [ProbabilityObjectArray.draw]
    | hd :: tl =>
      simp only [ProbabilityObjectArray.draw, Bool.false_or]
      have hilt : (nextNat s).1 % (hd :: tl).length < (hd :: tl).length :=
        Nat.mod_lt _ (Nat.succ_pos tl.length)
      by_cases hlk : locked.contains
          ((hd :: tl).getD ((nextNat s).1 % (hd :: tl).length) hd).key = true
      · rw [if_pos hlk, List.count_cons]
        have hne : ¬ (((hd :: tl).getD ((nextNat s).1 % (hd :: tl).length) hd).key == k)
            = true := by
          intro he
          rw [beq_iff_eq] at he
          rw [he] at hlk; rw [hlk] at hk; cases hk
        rw [if_neg hne]
        have hrec := ih (hd :: tl) (nextNat s).2
        omega
      · rw [if_neg hlk, List.count_cons]
        have hperm : (hd :: tl).Perm
            (((hd :: tl).getD ((nextNat s).1 % (hd :: tl).length) hd) ::
              (hd :: tl).eraseIdx ((nextNat s).1 % (hd :: tl).length)) :=
          perm_getD_cons_eraseIdx _ _ _ hilt
        have hcount : ((hd :: tl).map (fun q => q.key)).count k =
            ((((hd :: tl).getD ((nextNat s).1 % (hd :: tl).length) hd) ::
              (hd :: tl).eraseIdx ((nextNat s).1 % (hd :: tl).length)).map
                (fun q => q.key)).count k :=
          (hperm.map (fun q => q.key)).count_eq k
        have hsplit : ((hd :: tl).map (fun q => q.key)).count k
            = (((hd :: tl).eraseIdx ((nextNat s).1 % (hd :: tl).length)).map
                (fun q => q.key)).count k
              + (if (((hd :: tl).getD ((nextNat s).1 % (hd :: tl).length) hd).key == k) = true
                 then 1 else 0) := by
          rw [hcount, List.map_cons, List.count_cons]
        have hrec := ih ((hd :: tl).eraseIdx ((nextNat s).1 % (hd :: tl).length)) (nextNat s).2
        rw [hsplit]
        omega

theorem draw_full_perm {K V : Type} [BEq K] :
    ∀ (count : Nat) (pool : List (ProbabilityObject K V)) (s : St),
      pool.length = count →
      ((ProbabilityObjectArray.draw pool count false [] s).1).Perm
        (pool.map (fun p => p.key)) := by
  intro count
  induction count with
  | zero =>
    intro pool s hlen
    rw [List.length_eq_zero] at hlen
    subst hlen
    simp [ProbabilityObjectArray.draw]
  | succ c ih =>
    intro pool s hlen
    match pool with
    | [] => cases hlen
    | hd :: tl =>
      simp only [ProbabilityObjectArray.draw, Bool.false_or, List.contains_nil, if_false]
      have hilt : (nextNat s).1 % (hd :: tl).length < (hd :: tl).length :=
        Nat.mod_lt _ (Nat.succ_pos tl.length)
      have herlen : ((hd :: tl).eraseIdx ((nextNat s).1 % (hd :: tl).length)).length = c := by
        have := List.length_eraseIdx_add_one hilt
        omega
      have hrec := ih ((hd :: tl).eraseIdx ((nextNat s).1 % (hd :: tl).length))
        (nextNat s).2 herlen
      have hperm : (hd :: tl).Perm
          (((hd :: tl).getD ((nextNat s).1 % (hd :: tl).length) hd) ::
            (hd :: tl).eraseIdx ((nextNat s).1 % (hd :: tl).length)) :=
        perm_getD_cons_eraseIdx _ _ _ hilt
      have hmap := hperm.map (fun q => q.key)
      rw [List.map_cons] at hmap
      exact (hrec.cons _).trans hmap.symm

/-! ## C6: the duplicate lock of the container item draw -/

/-- C6 (amended).  In the item-key draw of `addLootToContainer` (duplicates
disabled, i.e. drawing without replacement with the currency `locklist`), a
non-currency template id is drawn at most as many times as it occurs in the
candidate pool - in particular never twice when the pool lists it once - while
the locked currency ids stay in the pool and may repeat under either value of
the duplicate-allowance setting. -/
theorem draw_duplicate_lock :
    (∀ (pool : List (ProbabilityObject String Unit)) (count : Nat) (s : St) (k : String),
      locklist.contains k = false →
      (ProbabilityObjectArray.draw pool count false locklist s).1.count k ≤
        (pool.map (fun p => p.key)).count k)
    ∧ (∀ repl : Bool,
        (ProbabilityObjectArray.draw
          [({ key := Money.ROUBLES, relativeProbability := 1 } :
            ProbabilityObject String Unit)]
          2 repl locklist ({} : St)).1 = [Money.ROUBLES, Money.ROUBLES]) := by
  constructor
  · intro pool count s k hk
    exact draw_count_le locklist k hk count pool s
  · intro repl
    cases repl <;> decide

/-- Witness for the duplicate-lock bound at a concrete pool. -/
theorem draw_duplicate_lock_witness :
    locklist.contains "tplY" = false ∧
    (ProbabilityObjectArray.draw
        [({ key := "tplY", relativeProbability := 1 } : ProbabilityObject String Unit)]
        3 false locklist ({} : St)).1.count "tplY" ≤
      ([({ key := "tplY", relativeProbability := 1 } :
          ProbabilityObject String Unit)].map (fun p => p.key)).count "tplY" :=
  ⟨by decide, draw_duplicate_lock.1 _ 3 _ "tplY" (by decide)⟩

/-- C6 (counterexample).  A pool that lists the same non-currency template id
twice lets the without-replacement draw return it twice even with duplicate
items disabled: removal is by position, not by key, so the claim "no
non-currency template id is drawn more than once" fails on this input. -/
theorem draw_duplicate_nonCurrency_counterexample :
    (ProbabilityObjectArray.draw
      [({ key := "tplX", relativeProbability := 1 } : ProbabilityObject String Unit),
       ({ key := "tplX", relativeProbability := 1 } : ProbabilityObject String Unit)]
      2 false locklist ({ nats := [0, 0] } : St)).1.count "tplX" = 2
    ∧ locklist.contains "tplX" = false := by
  constructor <;> decide

/-! ## C3: the empty-string synthetic group -/

/-- The Bernoulli-trial specification of the empty-group special case, written
from the specification text: every member whose oracle trial comes up true is
kept, an exhausted oracle counts as failure. -/
def bernoulliSuccesses : List (String × Rat) → List Bool → List (String × Rat)
  | [], _ => []
  | _ :: rest, [] => bernoulliSuccesses rest []
  | (k, p) :: rest, b :: bs =>
    if b then (k, p) :: bernoulliSuccesses rest bs else bernoulliSuccesses rest bs

theorem emptyGroupRerollLoop_eq_bernoulli :
    ∀ (pairs : List (String × Rat)) (s : St),
      (emptyGroupRerollLoop pairs s).1 = bernoulliSuccesses pairs s.bools := by
  intro pairs
  induction pairs with
  | nil => intro s; rfl
  | cons hd rest ih =>
    intro s
    obtain ⟨k, p⟩ := hd
    cases hb : s.bools with
    | nil =>
      have hnext : nextBool s = (false, s) := by
        simp [nextBool, hb]
      simp only [emptyGroupRerollLoop, getChance100, hnext]
      simp only [if_neg (by simp : ¬ (false = true))]
      rw [ih s, hb]
      rfl
    | cons b bs =>
      have hnext : nextBool s = (b, { s with bools := bs }) := by
        simp [nextBool, hb]
      simp only [emptyGroupRerollLoop, getChance100, hnext]
      rw [ih { s with bools := bs }]
      cases b <;> simp [bernoulliSuccesses]

/-- C3.  For the synthetic empty-string group, the reroll keeps exactly the
members whose independent Bernoulli trial succeeds (in order, one oracle trial
per member), sets the target count to their number, and the subsequent
weighted draw of `getContainersByProbabilty` returns exactly those container
ids (as a permutation - a set-preserving draw of n out of n without
replacement): no member is dropped or added. -/
theorem emptyGroup_bernoulli_selection (data : IContainerGroupCount) (s : St) :
    ((emptyGroupReroll data s).1).containerIdsWithProbability
        = bernoulliSuccesses data.containerIdsWithProbability s.bools
    ∧ ((emptyGroupReroll data s).1).chosenCount
        = ((bernoulliSuccesses data.containerIdsWithProbability s.bools).length : Int)
    ∧ ((getContainersByProbabilty "" (emptyGroupReroll data s).1
          (emptyGroupReroll data s).2).1).Perm
        ((bernoulliSuccesses data.containerIdsWithProbability s.bools).map (fun q => q.1)) := by
  have h1 := emptyGroupRerollLoop_eq_bernoulli data.containerIdsWithProbability s
  refine ⟨by simpa [emptyGroupReroll] using h1, by simp [emptyGroupReroll, h1], ?_⟩
  simp only [getContainersByProbabilty, emptyGroupReroll, h1]
  rw [if_neg (by simp)]
  have hlen : ((bernoulliSuccesses data.containerIdsWithProbability s.bools).map
      (fun q => ({ key := q.1, relativeProbability := q.2 } :
        ProbabilityObject String Unit))).length
      = ((bernoulliSuccesses data.containerIdsWithProbability s.bools).length : Int).toNat := by
    simp
  have hperm := draw_full_perm
    (((bernoulliSuccesses data.containerIdsWithProbability s.bools).length : Int).toNat)
    ((bernoulliSuccesses data.containerIdsWithProbability s.bools).map
      (fun q => ({ key := q.1, relativeProbability := q.2 } :
        ProbabilityObject String Unit)))
    (emptyGroupRerollLoop data.containerIdsWithProbability s).2 hlen
  simpa [List.map_map, Function.comp] using hperm

/-! ## C7: weapon branch of createStaticLootItem -/

/-- C7.  For a weapon-category template: with no default preset the build
returns the bare weapon root node only, logging a diagnostic and raising no
error; with a default preset whose re-parenting fails, the error is logged and
re-thrown out of the build. -/
theorem createStaticLootItem_weapon_policy (cfg : LocationConfig) (env : Env) (tpl : String)
    (ammo : StaticAmmoDist) (parentId : Option String) (s : St)
    (hmoney : env.isOfBaseclass tpl BaseClasses.MONEY = false)
    (hammo : env.isOfBaseclass tpl BaseClasses.AMMO = false)
    (hweapon : env.isOfBaseclass tpl BaseClasses.WEAPON = true) :
    (env.getDefaultPreset tpl = none →
      ∃ it w h s1,
        createStaticLootItem cfg env tpl ammo parentId s =
          (.ok { items := [it], width := w, height := h }, s1) ∧
        it._tpl = tpl ∧
        (LogLevel.debug, "createItem() No preset found for weapon: " ++ tpl) ∈ s1.logs)
    ∧ (∀ preset e, env.getDefaultPreset tpl = some preset →
        env.reparentPresets preset._items.headI preset._items = .error e →
        ∃ s1, createStaticLootItem cfg env tpl ammo parentId s = (.error e, s1) ∧
          (LogLevel.warning, env.getText "location-preset_not_found") ∈ s1.logs) := by
  constructor
  · intro hnone
    simp only [createStaticLootItem, hmoney, hammo, hweapon, hnone, Bool.or_self,
      Bool.false_or, if_false, if_true]
    refine ⟨_, _, _, _, rfl, rfl, ?_⟩
    simp [logAt]
  · intro preset e hsome herr
    simp only [createStaticLootItem, hmoney, hammo, hweapon, hsome, herr, Bool.or_self,
      Bool.false_or, if_false, if_true]
    exact ⟨_, rfl, by simp [logAt]⟩

/-- Witness for the weapon-branch policy at a concrete environment. -/
def envWeaponOnly : Env where
  getItem := fun _ => {}
  isOfBaseclass := fun _ base => base == BaseClasses.WEAPON
  findSlotForItem := fun _ _ _ => { success := true }
  fillContainerMapWithItem := fun g _ _ _ _ _ => g
  seasonalEventEnabled := true
  seasonalItems := []
  getDefaultPreset := fun _ => none
  reparentPresets := fun _ items => .ok items
  addCartridgesToAmmoBox := fun items _ => items
  fillMagazineWithRandomCartridge := fun items _ _ _ _ => items
  getItemSize := fun _ _ => (1, 1)
  findAndReturnChildrenAsItems := fun _ _ => []
  getText := fun k => k

/-- A minimal configuration shared by the concrete witnesses. -/
def cfgWitness : LocationConfig where
  containerRandomisationSettings :=
    { enabled := false, maps := [], containerGroupMinSizeMultiplier := 1,
      containerGroupMaxSizeMultiplier := 1, containerTypesToNotRandomise := [] }
  fitLootIntoContainerAttempts := 2
  allowDuplicateItemsInStaticContainers := false
  staticLootMultiplier := [("m", 1)]
  looseLootMultiplier := [("m", 1)]
  looseLootBlacklist := []
  forcedLootSingleSpawnById := []
  minFillStaticMagazinePercent := 30
  minFillLooseMagazinePercent := 30

theorem createStaticLootItem_weapon_policy_witness :
    ∃ it w h s1,
      createStaticLootItem cfgWitness envWeaponOnly "weaponA" [] (some "parent0") ({} : St) =
        (.ok { items := [it], width := w, height := h }, s1) ∧
      it._tpl = "weaponA" ∧
      (LogLevel.debug, "createItem() No preset found for weapon: " ++ "weaponA") ∈ s1.logs :=
  (createStaticLootItem_weapon_policy cfgWitness envWeaponOnly "weaponA" [] (some "parent0")
    ({} : St) (by decide) (by decide) (by decide)).1 rfl

/-! ## C5: the placement failure policy of the container fill loop -/

theorem createStaticLootItem_ok_of_not_weapon (cfg : LocationConfig) (env : Env) (tpl : String)
    (ammo : StaticAmmoDist) (parentId : Option String) (s : St)
    (h : env.isOfBaseclass tpl BaseClasses.WEAPON = false) :
    ∃ ci s1, createStaticLootItem cfg env tpl ammo parentId s = (.ok ci, s1) := by
  simp only [createStaticLootItem, h, if_false]
  by_cases h1 : (env.isOfBaseclass tpl BaseClasses.MONEY ||
      env.isOfBaseclass tpl BaseClasses.AMMO) = true
  · rw [if_pos h1]
    exact ⟨_, _, rfl⟩
  · rw [if_neg h1]
    by_cases h3 : env.isOfBaseclass tpl BaseClasses.AMMO_BOX = true
    · rw [if_pos h3]
      exact ⟨_, _, rfl⟩
    · rw [if_neg h3]
      by_cases h4 : env.isOfBaseclass tpl BaseClasses.MAGAZINE = true
      · rw [if_pos h4]
        exact ⟨_, _, rfl⟩
      · rw [if_neg h4]
        exact ⟨_, _, rfl⟩

theorem addLootLoop_extends (cfg : LocationConfig) (env : Env) (ammo : StaticAmmoDist)
    (pid : String) :
    ∀ (tpls : List String) (grid : Grid) (failed : Nat) (items : List Item) (s : St)
      (items1 : List Item) (s1 : St),
      addLootLoop cfg env ammo pid tpls grid failed items s = (.ok items1, s1) →
      ∃ suffix, items1 = items ++ suffix := by
  intro tpls
  induction tpls with
  | nil =>
    intro grid failed items s items1 s1 h
    simp only [addLootLoop, Prod.mk.injEq, Except.ok.injEq] at h
    exact ⟨[], by simp [h.1.symm]⟩
  | cons tpl rest ih =>
    intro grid failed items s items1 s1 h
    rcases hc : createStaticLootItem cfg env tpl ammo (some pid) s with ⟨cfst, cs⟩
    cases cfst with
    | error e =>
      simp only [addLootLoop, hc] at h
      simp at h
    | ok ci =>
      simp only [addLootLoop, hc] at h
      by_cases hs : (env.findSlotForItem grid ci.width ci.height).success = false
      · rw [if_pos hs] at h
        by_cases hb : cfg.fitLootIntoContainerAttempts ≤ failed
        · rw [if_pos hb] at h
          simp only [Prod.mk.injEq, Except.ok.injEq] at h
          exact ⟨[], by simp [h.1.symm]⟩
        · rw [if_neg hb] at h
          exact ih _ _ _ _ _ _ h
      · rw [if_neg hs] at h
        obtain ⟨suffix, hsuf⟩ := ih _ _ _ _ _ _ h
        exact ⟨_, by rw [hsuf, List.append_assoc]⟩

theorem addLootLoop_ok (cfg : LocationConfig) (env : Env) (ammo : StaticAmmoDist)
    (pid : String) :
    ∀ (tpls : List String) (grid : Grid) (failed : Nat) (items : List Item) (s : St),
      (∀ t ∈ tpls, env.isOfBaseclass t BaseClasses.WEAPON = false) →
      ∃ items1 s1, addLootLoop cfg env ammo pid tpls grid failed items s = (.ok items1, s1) := by
  intro tpls
  induction tpls with
  | nil => exact fun grid failed items s _ => ⟨items, s, rfl⟩
  | cons tpl rest ih =>
    intro grid failed items s hall
    obtain ⟨ci, cs, hci⟩ := createStaticLootItem_ok_of_not_weapon cfg env tpl ammo
      (some pid) s (hall tpl (by simp))
    simp only [addLootLoop, hci]
    by_cases hs : (env.findSlotForItem grid ci.width ci.height).success = false
    · rw [if_pos hs]
      by_cases hb : cfg.fitLootIntoContainerAttempts ≤ failed
      · rw [if_pos hb]
        exact ⟨items, cs, rfl⟩
      · rw [if_neg hb]
        exact ih _ _ _ _ (fun t ht => hall t (by simp [ht]))
    · rw [if_neg hs]
      exact ih _ _ _ _ (fun t ht => hall t (by simp [ht]))

/-- C5 (amended).  The fill loop of `addLootToContainer`: (1) items already in
the container always remain (the accumulated list is only extended); (2) a
placement failure never raises an error - with every build succeeding
(non-weapon templates), the loop always returns ok; (3) a placement failure
with the cumulative failure count already at the configured budget stops the
loop, dropping every remaining pending item; (4) a placement failure below
the budget skips only the failing item, increments the cumulative counter
(which no success ever resets) and continues with the rest. -/
theorem addLootToContainer_placement_policy (cfg : LocationConfig) (env : Env)
    (ammo : StaticAmmoDist) (pid : String) :
    (∀ (tpls : List String) (grid : Grid) (failed : Nat) (items : List Item) (s : St)
       (items1 : List Item) (s1 : St),
       addLootLoop cfg env ammo pid tpls grid failed items s = (.ok items1, s1) →
       ∃ suffix, items1 = items ++ suffix)
    ∧ (∀ (tpls : List String) (grid : Grid) (failed : Nat) (items : List Item) (s : St),
        (∀ t ∈ tpls, env.isOfBaseclass t BaseClasses.WEAPON = false) →
        ∃ items1 s1, addLootLoop cfg env ammo pid tpls grid failed items s = (.ok items1, s1))
    ∧ (∀ (tpl : String) (rest : List String) (grid : Grid) (failed : Nat) (items : List Item)
         (s : St) (ci : IContainerItem) (s1 : St),
        createStaticLootItem cfg env tpl ammo (some pid) s = (.ok ci, s1) →
        (env.findSlotForItem grid ci.width ci.height).success = false →
        cfg.fitLootIntoContainerAttempts ≤ failed →
        addLootLoop cfg env ammo pid (tpl :: rest) grid failed items s = (.ok items, s1))
    ∧ (∀ (tpl : String) (rest : List String) (grid : Grid) (failed : Nat) (items : List Item)
         (s : St) (ci : IContainerItem) (s1 : St),
        createStaticLootItem cfg env tpl ammo (some pid) s = (.ok ci, s1) →
        (env.findSlotForItem grid ci.width ci.height).success = false →
        failed < cfg.fitLootIntoContainerAttempts →
        addLootLoop cfg env ammo pid (tpl :: rest) grid failed items s =
          addLootLoop cfg env ammo pid rest grid (failed + 1) items s1) := by
  refine ⟨addLootLoop_extends cfg env ammo pid, addLootLoop_ok cfg env ammo pid, ?_, ?_⟩
  · intro tpl rest grid failed items s ci s1 hci hs hb
    simp only [addLootLoop, hci]
    rw [if_pos hs, if_pos hb]
  · intro tpl rest grid failed items s ci s1 hci hs hb
    simp only [addLootLoop, hci]
    rw [if_pos hs, if_neg (by omega)]

/-- Environment of the placement counterexample: "big" items (declared width
9) never fit, "small" items (width 1) always fit; nothing is a weapon. -/
def envPlacement : Env where
  getItem := fun t => if t == "big" then { Width := 9 } else { Width := 1 }
  isOfBaseclass := fun _ _ => false
  findSlotForItem := fun _ w _ => if w ≤ 1 then { success := true } else { success := false }
  fillContainerMapWithItem := fun g _ _ _ _ _ => g
  seasonalEventEnabled := true
  seasonalItems := []
  getDefaultPreset := fun _ => none
  reparentPresets := fun _ items => .ok items
  addCartridgesToAmmoBox := fun items _ => items
  fillMagazineWithRandomCartridge := fun items _ _ _ _ => items
  getItemSize := fun _ _ => (1, 1)
  findAndReturnChildrenAsItems := fun _ _ => []
  getText := fun k => k

/-- C5 (counterexample).  With the failure budget 2 and the alternating
sequence big, small, big, small, big, small, the failures are never
consecutive (a success sits between any two), yet the loop stops at the third
failure - the counter is cumulative, never reset - and drops the final
"small" even though it would fit (last conjunct).  Under the claim as stated
(budget of consecutive failures; once reached, all remaining dropped) the
placed items would be three "small" items (consecutive reading: no drop ever)
or one (dropping from the moment the count reaches the budget); the code
places exactly two. -/
theorem addLootLoop_budget_counterexample :
    ∃ items1 s1,
      addLootLoop cfgWitness envPlacement [] "pid"
        ["big", "small", "big", "small", "big", "small"] [[0]] 0 [] ({} : St)
        = (.ok items1, s1)
      ∧ items1.length = 2
      ∧ items1.all (fun it => it._tpl == "small") = true
      ∧ (envPlacement.findSlotForItem [[0]] 1 1).success = true := by
  refine ⟨_, _, rfl, ?_, ?_, ?_⟩ <;> decide

/-- Witness for the placement policy: the no-error part applied at a concrete
non-weapon fill. -/
theorem addLootToContainer_placement_policy_witness :
    ∃ items1 s1,
      addLootLoop cfgWitness envPlacement [] "pid" ["small"] [[0]] 0 [] ({} : St)
        = (.ok items1, s1) :=
  (addLootToContainer_placement_policy cfgWitness envPlacement [] "pid").2.1
    ["small"] [[0]] 0 [] ({} : St) (by decide)

/-! ## C4 and C1: population lemmas for generateStaticContainers -/

theorem addLootToContainer_Id (cfg : LocationConfig) (env : Env)
    (sc : IStaticContainerData) (sf : Option (List IStaticForcedProps))
    (ld : List (String × IStaticLootDetails)) (ammo : StaticAmmoDist) (ln : String)
    (s : St) (c1 : IStaticContainerData) (s1 : St)
    (h : addLootToContainer cfg env sc sf ld ammo ln s = (.ok c1, s1)) :
    c1.template.Id = sc.template.Id := by
  rcases hI : sc.template.Items with _ | ⟨i0, restItems⟩
  · simp only [addLootToContainer, hI] at h
    simp at h
  · simp only [addLootToContainer, hI] at h
    split at h
    · simp at h
    · split at h
      · simp at h
      · split at h
        · simp at h
        · split at h
          · simp at h
          · simp only [Prod.mk.injEq, Except.ok.injEq] at h
            rw [← h.1]

theorem populateContainers_ok (cfg : LocationConfig) (env : Env)
    (sf : Option (List IStaticForcedProps)) (ld : List (String × IStaticLootDetails))
    (ammo : StaticAmmoDist) (loc : String) :
    ∀ (cs : List IStaticContainerData) (s : St) (ts : List SpawnpointTemplate) (s1 : St),
      populateContainers cfg env sf ld ammo loc cs s = (.ok ts, s1) →
      ts.length = cs.length ∧ ∀ c ∈ cs, ∃ t ∈ ts, t.Id = c.template.Id := by
  intro cs
  induction cs with
  | nil =>
    intro s ts s1 h
    simp only [populateContainers, Prod.mk.injEq, Except.ok.injEq] at h
    constructor
    · rw [← h.1]; rfl
    · simp
  | cons c rest ih =>
    intro s ts s1 h
    rcases ha : addLootToContainer cfg env c sf ld ammo loc s with ⟨af, as1⟩
    cases af with
    | error e =>
      simp only [populateContainers, ha] at h
      simp at h
    | ok cw =>
      simp only [populateContainers, ha] at h
      rcases hp : populateContainers cfg env sf ld ammo loc rest as1 with ⟨pf, ps1⟩
      cases pf with
      | error e =>
        rw [hp] at h
        simp at h
      | ok ts0 =>
        rw [hp] at h
        simp only [Prod.mk.injEq, Except.ok.injEq] at h
        obtain ⟨hts, _⟩ := h
        subst hts
        have hid := addLootToContainer_Id cfg env c sf ld ammo loc s cw as1 ha
        obtain ⟨hlen, hmem⟩ := ih _ _ _ hp
        refine ⟨by simp [hlen], ?_⟩
        intro x hx
        rcases List.mem_cons.1 hx with rfl | hx
        · exact ⟨cw.template, by simp, hid⟩
        · obtain ⟨t, ht, hte⟩ := hmem x hx
          exact ⟨t, by simp [ht], hte⟩

/-- C4.  With container randomisation disabled globally or for this map,
`generateStaticContainers` (when it returns) yields exactly the static
weapons, the populated guaranteed containers and the populated randomizable
containers - one output template per container, so no group-based weighted
selection adds or removes anything - and every guaranteed and every
randomizable container appears (by template id) in the respective segment. -/
theorem randomisationDisabled_populates_all (cfg : LocationConfig) (env : Env) (db : Db)
    (lb : LocationBase) (ammo : StaticAmmoDist) (s : St) (res : List SpawnpointTemplate)
    (s1 : St)
    (hdis : cfg.containerRandomisationSettings.enabled = false ∨
      cfg.containerRandomisationSettings.maps.contains lb.Id.toLower = false)
    (h : generateStaticContainers cfg env db lb ammo s = (.ok res, s1)) :
    ∃ d gts rts,
      recGet? db.staticContainers lb.Name = some d ∧
      res = d.staticWeapons ++ gts ++ rts ∧
      gts.length = (getGuaranteedContainers cfg d.staticContainers).length ∧
      rts.length = (getRandomisableContainersOnMap cfg d.staticContainers).length ∧
      (∀ c ∈ getGuaranteedContainers cfg d.staticContainers,
        ∃ t ∈ gts, t.Id = c.template.Id) ∧
      (∀ c ∈ getRandomisableContainersOnMap cfg d.staticContainers,
        ∃ t ∈ rts, t.Id = c.template.Id) := by
  rcases hdb : recGet? db.staticContainers lb.Name with _ | d
  · simp only [generateStaticContainers, hdb] at h
    simp at h
  · have hcond : (!cfg.containerRandomisationSettings.enabled ||
        !cfg.containerRandomisationSettings.maps.contains lb.Id.toLower) = true := by
      rcases hdis with h1 | h1 <;> rw [h1] <;> simp
    simp only [generateStaticContainers, hdb, Option.map_some', Option.isNone_some,
      Bool.false_eq_true, if_false, Option.getD_some] at h
    split at h
    · simp at h
    · rename_i gts s4 hpop
      rw [if_pos hcond] at h
      split at h
      · simp at h
      · rename_i rts s7 hpop2
        simp only [Prod.mk.injEq, Except.ok.injEq] at h
        obtain ⟨hres, _⟩ := h
        obtain ⟨hlen1, hmem1⟩ := populateContainers_ok cfg env _ _ _ _ _ _ _ _ hpop
        obtain ⟨hlen2, hmem2⟩ := populateContainers_ok cfg env _ _ _ _ _ _ _ _ hpop2
        exact ⟨d, gts, rts, rfl, hres.symm, hlen1, hlen2, hmem1, hmem2⟩

/-! ## Record and de-duplication lemmas -/

theorem recGet?_cons {β : Type} (k1 : String) (v1 : β) (m : List (String × β)) (k : String) :
    recGet? ((k1, v1) :: m) k = if (k1 == k) = true then some v1 else recGet? m k := by
  simp only [recGet?, List.find?_cons]
  by_cases h : (k1 == k) = true <;> simp [h]

theorem recGet?_recSet_self {β : Type} (m : List (String × β)) (k : String) (v : β) :
    recGet? (recSet m k v) k = some v := by
  induction m with
  | nil => simp [recSet, recGet?_cons]
  | cons hd rest ih =>
    obtain ⟨k1, v1⟩ := hd
    by_cases hk : (k1 == k) = true
    · simp [recSet, hk, recGet?_cons]
    · simp [recSet, hk, recGet?_cons, ih]

theorem recGet?_recSet_other {β : Type} (m : List (String × β)) (k k1 : String) (v : β)
    (hne : ¬ k1 = k) : recGet? (recSet m k v) k1 = recGet? m k1 := by
  induction m with
  | nil =>
    have hkk : (k == k1) = false := beq_eq_false_iff_ne.2 (fun he => hne he.symm)
    simp [recSet, recGet?_cons, hkk, recGet?]
  | cons hd rest ih =>
    obtain ⟨kh, vh⟩ := hd
    by_cases hk : (kh == k) = true
    · have hkh : (kh == k1) = false := by
        rw [beq_iff_eq] at hk
        rw [hk]
        exact beq_eq_false_iff_ne.2 (fun he => hne he.symm)
      simp [recSet, hk, recGet?_cons, hkh]
    · by_cases hk1 : (kh == k1) = true
      · simp [recSet, hk, recGet?_cons, hk1]
      · simp [recSet, hk, recGet?_cons, hk1, ih]

theorem recGet?_mem {β : Type} (m : List (String × β)) (k : String) (v : β)
    (h : recGet? m k = some v) : (k, v) ∈ m := by
  unfold recGet? at h
  rcases hf : m.find? (fun p => p.1 == k) with _ | p
  · rw [hf] at h; simp at h
  · rw [hf] at h
    simp only [Option.map_some', Option.some.injEq] at h
    have hmem := List.mem_of_find?_eq_some hf
    have hpred := List.find?_some hf
    obtain ⟨p1, p2⟩ := p
    simp only at hpred h
    rw [beq_iff_eq] at hpred
    rw [← hpred, ← h]
    exact hmem

theorem recSet_mem_sub {β : Type} (m : List (String × β)) (k : String) (v : β)
    (p : String × β) (h : p ∈ recSet m k v) : p ∈ m ∨ p = (k, v) := by
  induction m with
  | nil => simpa [recSet] using h
  | cons hd rest ih =>
    obtain ⟨kh, vh⟩ := hd
    by_cases hk : (kh == k) = true
    · simp only [recSet, hk, if_true] at h
      rcases List.mem_cons.1 h with rfl | h
      · right
        rw [beq_iff_eq] at hk
        rw [hk]
      · exact Or.inl (by simp [h])
    · simp only [recSet, hk, if_false] at h
      rcases List.mem_cons.1 h with rfl | h
      · exact Or.inl (by simp)
      · rcases ih h with h1 | h1
        · exact Or.inl (by simp [h1])
        · exact Or.inr h1

theorem foldRecSet_lookup (x : Spawnpoint) :
    ∀ (xs : List Spawnpoint) (m : List (String × Spawnpoint)),
      (recGet? m x.locationId = some x ∨ x ∈ xs) →
      (∀ y ∈ xs, y.locationId = x.locationId → y = x) →
      recGet? (xs.foldl (fun acc q => recSet acc q.locationId q) m) x.locationId = some x := by
  intro xs
  induction xs with
  | nil =>
    intro m hm _
    rcases hm with hm | hm
    · exact hm
    · simp at hm
  | cons y ys ih =>
    intro m hm huniq
    simp only [List.foldl_cons]
    apply ih
    · rcases hm with hm | hm
      · by_cases hy : y.locationId = x.locationId
        · have hyx : y = x := huniq y (by simp) hy
          subst hyx
          left
          exact recGet?_recSet_self m y.locationId y
        · left
          rw [recGet?_recSet_other m y.locationId x.locationId y (fun he => hy he.symm)]
          exact hm
      · rcases List.mem_cons.1 hm with rfl | hm
        · left
          exact recGet?_recSet_self m x.locationId x
        · exact Or.inr hm
    · exact fun z hz hzl => huniq z (by simp [hz]) hzl

theorem dedup_mem_of_unique (xs : List Spawnpoint) (x : Spawnpoint) (hx : x ∈ xs)
    (huniq : ∀ y ∈ xs, y.locationId = x.locationId → y = x) :
    x ∈ dedupByLocationId xs := by
  have hl := foldRecSet_lookup x xs [] (Or.inr hx) huniq
  have hmem := recGet?_mem _ _ _ hl
  exact List.mem_map.2 ⟨(x.locationId, x), hmem, rfl⟩

theorem foldRecSet_values_sub (xs : List Spawnpoint) :
    ∀ (m : List (String × Spawnpoint)) (p : String × Spawnpoint),
      p ∈ xs.foldl (fun acc q => recSet acc q.locationId q) m → p ∈ m ∨ p.2 ∈ xs := by
  induction xs with
  | nil => exact fun m p h => Or.inl h
  | cons y ys ih =>
    intro m p h
    simp only [List.foldl_cons] at h
    rcases ih _ _ h with hm | hys
    · rcases recSet_mem_sub _ _ _ _ hm with h1 | h1
      · exact Or.inl h1
      · right
        rw [h1]
        simp
    · right
      simp [hys]

theorem dedup_sub (xs : List Spawnpoint) (y : Spawnpoint)
    (h : y ∈ dedupByLocationId xs) : y ∈ xs := by
  obtain ⟨p, hp, hpy⟩ := List.mem_map.1 h
  rcases foldRecSet_values_sub xs [] p hp with h0 | h2
  · simp at h0
  · rw [← hpy]
    exact h2

/-! ## Classification lemmas for generateDynamicLoot -/

theorem classifyLoop_spec (bl : List String) :
    ∀ (pts : List Spawnpoint) (s : St),
      (∀ sp ∈ pts, bl.contains sp.template.Id = false → sp.probability = 1 →
        sp ∈ (classifyLoop bl pts s).1.1)
      ∧ (∀ y ∈ (classifyLoop bl pts s).1.1,
          y ∈ pts ∧ bl.contains y.template.Id = false)
      ∧ (∀ q ∈ (classifyLoop bl pts s).1.2, ∃ sq, q.data = some sq ∧ sq ∈ pts ∧
          bl.contains sq.template.Id = false ∧ ¬ (sq.probability = 1)) := by
  intro pts
  induction pts with
  | nil =>
    intro s
    exact ⟨by simp, by simp [classifyLoop], by simp [classifyLoop]⟩
  | cons sp rest ih =>
    intro s
    by_cases hbl : bl.contains sp.template.Id = true
    · simp only [classifyLoop]
      rw [if_pos hbl]
      obtain ⟨a1, a2, a3⟩ :=
        ih (logAt .debug ("Ignoring loose loot location: " ++ sp.template.Id) s)
      refine ⟨?_, ?_, ?_⟩
      · intro z hz hzb hzp
        rcases List.mem_cons.1 hz with rfl | hz
        · rw [hbl] at hzb; cases hzb
        · exact a1 z hz hzb hzp
      · intro y hy
        obtain ⟨hy1, hy2⟩ := a2 y hy
        exact ⟨by simp [hy1], hy2⟩
      · intro q hq
        obtain ⟨sq, h1, h2, h3, h4⟩ := a3 q hq
        exact ⟨sq, h1, by simp [h2], h3, h4⟩
    · have hbl0 : bl.contains sp.template.Id = false := by
        cases hcb : bl.contains sp.template.Id
        · rfl
        · exact absurd hcb hbl
      obtain ⟨a1, a2, a3⟩ := ih s
      by_cases hp : (sp.probability == 1) = true
      · simp only [classifyLoop]
        rw [if_neg hbl, if_pos hp]
        refine ⟨?_, ?_, ?_⟩
        · intro z hz hzb hzp
          rcases List.mem_cons.1 hz with rfl | hz
          · simp
          · simp only [List.mem_cons]
            exact Or.inr (a1 z hz hzb hzp)
        · intro y hy
          rcases List.mem_cons.1 hy with rfl | hy
          · exact ⟨by simp, hbl0⟩
          · obtain ⟨hy1, hy2⟩ := a2 y hy
            exact ⟨by simp [hy1], hy2⟩
        · intro q hq
          obtain ⟨sq, h1, h2, h3, h4⟩ := a3 q hq
          exact ⟨sq, h1, by simp [h2], h3, h4⟩
      · simp only [classifyLoop]
        rw [if_neg hbl, if_neg hp]
        refine ⟨?_, ?_, ?_⟩
        · intro z hz hzb hzp
          rcases List.mem_cons.1 hz with rfl | hz
          · rw [beq_iff_eq] at hp
            exact absurd hzp hp
          · exact a1 z hz hzb hzp
        · intro y hy
          obtain ⟨hy1, hy2⟩ := a2 y hy
          exact ⟨by simp [hy1], hy2⟩
        · intro q hq
          rcases List.mem_cons.1 hq with rfl | hq
          · refine ⟨sp, rfl, by simp, hbl0, ?_⟩
            rw [beq_iff_eq] at hp
            exact hp
          · obtain ⟨sq, h1, h2, h3, h4⟩ := a3 q hq
            exact ⟨sq, h1, by simp [h2], h3, h4⟩

theorem dataOf_some {K V : Type} [BEq K] (pool : List (ProbabilityObject K V)) (k : K)
    (v : V) (h : ProbabilityObjectArray.dataOf pool k = some v) :
    ∃ q ∈ pool, q.data = some v := by
  unfold ProbabilityObjectArray.dataOf at h
  rcases hf : pool.find? (fun p => p.key == k) with _ | q
  · rw [hf] at h; simp at h
  · rw [hf] at h
    simp only [Option.some_bind] at h
    exact ⟨q, List.mem_of_find?_eq_some hf, h⟩

theorem lookupDrawn_mem (pool : List (ProbabilityObject String Spawnpoint)) :
    ∀ (ks : List String) (ds : List Spawnpoint), lookupDrawn pool ks = .ok ds →
      ∀ d ∈ ds, ∃ q ∈ pool, q.data = some d := by
  intro ks
  induction ks with
  | nil =>
    intro ds h d hd
    simp only [lookupDrawn, Except.ok.injEq] at h
    rw [← h] at hd
    simp at hd
  | cons k rest ih =>
    intro ds h d hd
    simp only [lookupDrawn] at h
    rcases hdo : ProbabilityObjectArray.dataOf pool k with _ | sp
    · rw [hdo] at h; simp at h
    · rw [hdo] at h
      rcases hr : lookupDrawn pool rest with e | more
      · rw [hr] at h; simp at h
      · rw [hr] at h
        simp only [Except.ok.injEq] at h
        rw [← h] at hd
        rcases List.mem_cons.1 hd with rfl | hd
        · exact dataOf_some pool k d hdo
        · exact ih more hr d hd

theorem spawnpointLoop_ids (cfg : LocationConfig) (env : Env) (ammo : StaticAmmoDist) :
    ∀ (chosen : List Spawnpoint) (s : St) (ts : List SpawnpointTemplate) (s1 : St),
      spawnpointLoop cfg env ammo chosen s = (.ok ts, s1) →
      ∀ t ∈ ts, ∃ sp ∈ chosen, t.Id = sp.template.Id := by
  intro chosen
  induction chosen with
  | nil =>
    intro s ts s1 h t ht
    simp only [spawnpointLoop, Prod.mk.injEq, Except.ok.injEq] at h
    rw [← h.1] at ht
    simp at ht
  | cons sp rest ih =>
    intro s ts s1 h t ht
    simp only [spawnpointLoop] at h
    split at h
    · simp at h
    · split at h
      · simp at h
      · split at h
        · simp at h
        · split at h
          · simp at h
          · split at h
            · simp at h
            · rename_i more s3 hrec
              simp only [Prod.mk.injEq, Except.ok.injEq] at h
              rw [← h.1] at ht
              rcases List.mem_cons.1 ht with rfl | ht
              · exact ⟨sp, by simp, rfl⟩
              · obtain ⟨sq, hsq, hte⟩ := ih _ _ _ hrec t ht
                exact ⟨sq, by simp [hsq], hte⟩

theorem chooseSpawnpoints_not_blacklisted (cfg : LocationConfig) (env : Env)
    (dyn : ILooseLoot) (ln : String) (desired : Int) (s : St)
    (chosen : List Spawnpoint) (s1 : St)
    (h : chooseSpawnpoints cfg env dyn ln desired s = (.ok chosen, s1)) :
    ∀ sp ∈ chosen,
      ((recGet? cfg.looseLootBlacklist ln).getD []).contains sp.template.Id = false := by
  simp only [chooseSpawnpoints] at h
  split at h
  · simp at h
  · rename_i drawnPoints hlk
    simp only [Prod.mk.injEq, Except.ok.injEq] at h
    obtain ⟨hch, _⟩ := h
    intro sp hsp
    rw [← hch] at hsp
    have hsub := dedup_sub _ _ hsp
    rcases List.mem_append.1 hsub with hg | hd
    · exact ((classifyLoop_spec _ dyn.spawnpoints s).2.1 sp hg).2
    · obtain ⟨q, hq, hqd⟩ := lookupDrawn_mem _ _ _ hlk sp hd
      obtain ⟨sq, h1, h2, h3, h4⟩ := (classifyLoop_spec _ dyn.spawnpoints s).2.2 q hq
      rw [hqd] at h1
      injection h1 with h1
      rw [h1]
      exact h3

theorem chooseSpawnpoints_includes_guaranteed (cfg : LocationConfig) (env : Env)
    (dyn : ILooseLoot) (ln : String) (desired : Int) (s : St)
    (chosen : List Spawnpoint) (s1 : St)
    (h : chooseSpawnpoints cfg env dyn ln desired s = (.ok chosen, s1))
    (sp : Spawnpoint) (hsp : sp ∈ dyn.spawnpoints) (hprob : sp.probability = 1)
    (hbl : ((recGet? cfg.looseLootBlacklist ln).getD []).contains sp.template.Id = false)
    (hpt : ∀ y ∈ dyn.spawnpoints, y.locationId = sp.locationId → y = sp) :
    sp ∈ chosen := by
  simp only [chooseSpawnpoints] at h
  split at h
  · simp at h
  · rename_i drawnPoints hlk
    simp only [Prod.mk.injEq, Except.ok.injEq] at h
    obtain ⟨hch, _⟩ := h
    rw [← hch]
    have hg : sp ∈ (classifyLoop ((recGet? cfg.looseLootBlacklist ln).getD [])
        dyn.spawnpoints s).1.1 :=
      (classifyLoop_spec _ dyn.spawnpoints s).1 sp hsp hbl hprob
    apply dedup_mem_of_unique
    · exact List.mem_append.2 (Or.inl hg)
    · intro y hy hyl
      rcases List.mem_append.1 hy with hyg | hyd
      · have hymem := ((classifyLoop_spec _ dyn.spawnpoints s).2.1 y hyg).1
        exact hpt y hymem hyl
      · obtain ⟨q, hq, hqd⟩ := lookupDrawn_mem _ _ _ hlk y hyd
        obtain ⟨sq, h1, h2, h3, h4⟩ := (classifyLoop_spec _ dyn.spawnpoints s).2.2 q hq
        rw [hqd] at h1
        injection h1 with h1
        subst h1
        exact hpt y h2 hyl

/-! ## C10: the blacklist takes precedence over guaranteed inclusion -/

/-- C10.  Every template that `generateDynamicLoot` emits beyond the forced
part comes from a spawn point that passed the blacklist check: the blacklist
is applied before the guaranteed-point classification, so a blacklisted
template id never reaches the non-forced output - even with spawn
probability 1 (no probability hypothesis appears below). -/
theorem blacklist_precedes_guaranteed (cfg : LocationConfig) (env : Env)
    (dyn : ILooseLoot) (ammo : StaticAmmoDist) (ln : String) (s : St)
    (loot : List SpawnpointTemplate) (s1 : St)
    (h : generateDynamicLoot cfg env dyn ammo ln s = (.ok loot, s1)) :
    ∃ forcedLoot pointLoot,
      loot = forcedLoot ++ pointLoot ∧
      (∃ s2, addForcedLoot cfg env dyn.spawnpointsForced ln s = (.ok forcedLoot, s2)) ∧
      ∀ t ∈ pointLoot,
        ((recGet? cfg.looseLootBlacklist ln).getD []).contains t.Id = false := by
  simp only [generateDynamicLoot] at h
  split at h
  · simp at h
  · rename_i forcedLoot s2 hf
    split at h
    · simp at h
    · rename_i chosen s3 hcs
      split at h
      · simp at h
      · rename_i pointLoot s4 hsl
        simp only [Prod.mk.injEq, Except.ok.injEq] at h
        obtain ⟨hl, _⟩ := h
        refine ⟨forcedLoot, pointLoot, hl.symm, ⟨s2, hf⟩, ?_⟩
        intro t ht
        obtain ⟨sp, hsp, hid⟩ := spawnpointLoop_ids cfg env ammo chosen s3 pointLoot s4 hsl t ht
        rw [hid]
        exact chooseSpawnpoints_not_blacklisted cfg env dyn ln _ _ chosen s3 hcs sp hsp

/-! ## C1: guaranteed inclusion -/

/-- C1 (amended).  Both halves of guaranteed inclusion: (1) every guaranteed
static container (probability 1, always-spawn, or exempt type) appears by
template id in any successful output of `generateStaticContainers`, for every
oracle state, i.e. every random seed; (2) every non-forced loose-loot spawn
point with probability 1 that is not on the map blacklist is among the chosen
spawn points, provided no other spawn point shares that point's locationId
(the de-duplication by locationId keeps one point per physical location).
Both provisos are forced by `guaranteed_point_exclusion_counterexample`. -/
theorem guaranteed_inclusion :
    (∀ (cfg : LocationConfig) (env : Env) (db : Db) (lb : LocationBase)
       (ammo : StaticAmmoDist) (s : St) (res : List SpawnpointTemplate) (s1 : St),
      generateStaticContainers cfg env db lb ammo s = (.ok res, s1) →
      ∀ c ∈ getGuaranteedContainers cfg
          (((recGet? db.staticContainers lb.Name).map (fun d => d.staticContainers)).getD []),
        ∃ t ∈ res, t.Id = c.template.Id)
    ∧ (∀ (cfg : LocationConfig) (env : Env) (dyn : ILooseLoot) (ln : String) (desired : Int)
         (s : St) (chosen : List Spawnpoint) (s1 : St),
        chooseSpawnpoints cfg env dyn ln desired s = (.ok chosen, s1) →
        ∀ sp ∈ dyn.spawnpoints, sp.probability = 1 →
          ((recGet? cfg.looseLootBlacklist ln).getD []).contains sp.template.Id = false →
          (∀ y ∈ dyn.spawnpoints, y.locationId = sp.locationId → y = sp) →
          sp ∈ chosen) := by
  constructor
  · intro cfg env db lb ammo s res s1 h c hc
    rcases hdb : recGet? db.staticContainers lb.Name with _ | d
    · rw [hdb] at hc
      simp [getGuaranteedContainers] at hc
    · rw [hdb] at hc
      simp only [Option.map_some', Option.getD_some] at hc
      simp only [generateStaticContainers, hdb, Option.map_some', Option.isNone_some,
        Bool.false_eq_true, if_false, Option.getD_some] at h
      split at h
      · simp at h
      · rename_i gts s4 hpop
        obtain ⟨_, hmem⟩ := populateContainers_ok cfg env _ _ _ _ _ _ _ _ hpop
        obtain ⟨t, htg, hte⟩ := hmem c hc
        split at h
        · split at h
          · simp at h
          · rename_i rts s7 hpop2
            simp only [Prod.mk.injEq, Except.ok.injEq] at h
            rw [← h.1]
            exact ⟨t, by simp [htg], hte⟩
        · split at h
          · simp at h
          · rename_i statics hloc
            split at h
            · simp at h
            · rename_i mapping s6 hmap
              split at h
              · simp at h
              · rename_i gos s7 hpg
                simp only [Prod.mk.injEq, Except.ok.injEq] at h
                rw [← h.1]
                exact ⟨t, by simp [htg], hte⟩
  · intro cfg env dyn ln desired s chosen s1 h sp hsp hprob hbl hpt
    exact chooseSpawnpoints_includes_guaranteed cfg env dyn ln desired s chosen s1
      h sp hsp hprob hbl hpt

/-- A spawn point with probability 1 whose template id is blacklisted. -/
def spBlack : Spawnpoint :=
  { locationId := "loc1", probability := 1, template := { Id := "blId" },
    itemDistribution := [] }

/-- A loose-loot table holding only the blacklisted guaranteed point. -/
def dynBlack : ILooseLoot :=
  { spawnpointCount := { mean := 0, std := 0 }, spawnpointsForced := [],
    spawnpoints := [spBlack] }

/-- Configuration blacklisting `spBlack` on map `m`. -/
def cfgBlack : LocationConfig :=
  { cfgWitness with looseLootBlacklist := [("m", ["blId"])] }

/-- A guaranteed (probability 1) spawn point at physical location `ld`. -/
def spDupG : Spawnpoint :=
  { locationId := "ld", probability := 1, template := { Id := "gdup" },
    itemDistribution := [] }

/-- A second spawn point sharing `spDupG`'s locationId, probability 1/2. -/
def spDupP : Spawnpoint :=
  { locationId := "ld", probability := 1/2, template := { Id := "pdup" },
    itemDistribution := [] }

/-- A loose-loot table whose two spawn points share one locationId. -/
def dynDup : ILooseLoot :=
  { spawnpointCount := { mean := 0, std := 0 }, spawnpointsForced := [],
    spawnpoints := [spDupG, spDupP] }

/-- C1 (counterexample).  Two ways a non-forced spawn point with probability 1
fails to be chosen, one for each proviso of the amendment.  Mode 1 (blacklist):
`spBlack` has probability 1 but its template id is on the map blacklist, and
the chosen list comes back empty.  Mode 2 (locationId de-duplication, no
blacklist involved): `spDupG` has probability 1, is not blacklisted, but shares
its locationId with the lower-probability `spDupP`; after the weighted draw
picks `spDupP`, the last-wins Map de-duplication keeps `spDupP` and drops the
guaranteed `spDupG` from the chosen list. -/
theorem guaranteed_point_exclusion_counterexample :
    (spBlack ∈ dynBlack.spawnpoints ∧ spBlack.probability = 1 ∧
     ∃ chosen s1,
       chooseSpawnpoints cfgBlack envPlacement dynBlack "m" 5 ({} : St) = (.ok chosen, s1)
       ∧ spBlack ∉ chosen)
    ∧ (spDupG ∈ dynDup.spawnpoints ∧ spDupG.probability = 1 ∧
       ((recGet? cfgWitness.looseLootBlacklist "m").getD []).contains spDupG.template.Id
         = false ∧
       ∃ chosen s1,
         chooseSpawnpoints cfgWitness envPlacement dynDup "m" 1 ({} : St) = (.ok chosen, s1)
         ∧ spDupG ∉ chosen) := by
  refine ⟨⟨by simp [dynBlack], rfl, [], _, by with_unfolding_all rfl, by simp⟩,
    by simp [dynDup], rfl, by with_unfolding_all rfl, [spDupP], _,
    by with_unfolding_all rfl, by simp [spDupG, spDupP]⟩

/-- The database of the guaranteed-container witness run. -/
def lbWitness : LocationBase := { Id := "m", Name := "m" }

/-- A guaranteed (probability 1) container. -/
def containerGuaranteed : IStaticContainerData :=
  { probability := 1,
    template := { Id := "c1", Items := [{ _id := "old0", _tpl := "boxTpl" }] } }

/-- Concrete database with one guaranteed container. -/
def dbWitness : Db :=
  { staticContainers :=
      [("m", { staticWeapons := [], staticContainers := [containerGuaranteed],
               staticForced := [] })],
    staticLoot :=
      [("boxTpl", { itemcountDistribution := [{ count := 0, relativeProbability := 1 }],
                    itemDistribution := [] })],
    locations := [] }

/-- A non-blacklisted guaranteed spawn point. -/
def spGood : Spawnpoint :=
  { locationId := "la", probability := 1, template := { Id := "g1" },
    itemDistribution := [] }

/-- Loose-loot table holding only `spGood`. -/
def dynGood : ILooseLoot :=
  { spawnpointCount := { mean := 0, std := 0 }, spawnpointsForced := [],
    spawnpoints := [spGood] }

/-- Witness for the amended guaranteed inclusion, both halves at concrete
inputs. -/
theorem guaranteed_inclusion_witness :
    (∃ res s1,
      generateStaticContainers cfgWitness envPlacement dbWitness lbWitness [] ({} : St)
          = (.ok res, s1)
      ∧ ∀ c ∈ getGuaranteedContainers cfgWitness
          (((recGet? dbWitness.staticContainers lbWitness.Name).map
              (fun d => d.staticContainers)).getD []),
          ∃ t ∈ res, t.Id = c.template.Id)
    ∧ (∃ chosen s1,
        chooseSpawnpoints cfgWitness envPlacement dynGood "m" 0 ({} : St) = (.ok chosen, s1)
        ∧ spGood ∈ chosen) := by
  constructor
  · obtain ⟨res, s1, hrun⟩ : ∃ res s1,
        generateStaticContainers cfgWitness envPlacement dbWitness lbWitness [] ({} : St)
          = (.ok res, s1) := ⟨_, _, by with_unfolding_all rfl⟩
    exact ⟨res, s1, hrun,
      guaranteed_inclusion.1 cfgWitness envPlacement dbWitness lbWitness [] _ res s1 hrun⟩
  · obtain ⟨chosen, s1, hrun⟩ : ∃ chosen s1,
        chooseSpawnpoints cfgWitness envPlacement dynGood "m" 0 ({} : St)
          = (.ok chosen, s1) := ⟨_, _, by with_unfolding_all rfl⟩
    exact ⟨chosen, s1, hrun,
      guaranteed_inclusion.2 cfgWitness envPlacement dynGood "m" 0 _ chosen s1
        hrun spGood (by simp [dynGood]) rfl (by with_unfolding_all rfl)
        (by intro y hy _; simpa [dynGood] using hy)⟩

/-- Witness for C4 at a concrete disabled-randomisation run. -/
theorem randomisationDisabled_populates_all_witness :
    ∃ res s1 d gts rts,
      generateStaticContainers cfgWitness envPlacement dbWitness lbWitness [] ({} : St)
        = (.ok res, s1)
      ∧ recGet? dbWitness.staticContainers lbWitness.Name = some d
      ∧ res = d.staticWeapons ++ gts ++ rts := by
  obtain ⟨res, s1, hrun⟩ : ∃ res s1,
      generateStaticContainers cfgWitness envPlacement dbWitness lbWitness [] ({} : St)
        = (.ok res, s1) := ⟨_, _, by with_unfolding_all rfl⟩
  obtain ⟨d, gts, rts, hd, hres, _⟩ := randomisationDisabled_populates_all cfgWitness
    envPlacement dbWitness lbWitness [] ({} : St) res s1 (Or.inl rfl) hrun
  exact ⟨res, s1, d, gts, rts, hrun, hd, hres⟩

/-- Environment of the dynamic-loot witness: children lookup returns the item
with the requested id. -/
def envDyn : Env :=
  { envPlacement with
    findAndReturnChildrenAsItems := fun items id => items.filter (fun x => x._id == id) }

/-- A guaranteed spawn point with one item to draw. -/
def spItem : Spawnpoint :=
  { locationId := "la", probability := 1,
    template := { Id := "g1", Items := [{ _id := "i1", _tpl := "tplA" }] },
    itemDistribution := [("i1", 1)] }

/-- Loose-loot table holding only `spItem`. -/
def dynItem : ILooseLoot :=
  { spawnpointCount := { mean := 0, std := 0 }, spawnpointsForced := [],
    spawnpoints := [spItem] }

/-- Witness for C10 at a concrete full dynamic generation run. -/
theorem blacklist_precedes_guaranteed_witness :
    ∃ loot s1 forcedLoot pointLoot,
      generateDynamicLoot cfgWitness envDyn dynItem [] "m" ({} : St) = (.ok loot, s1)
      ∧ loot = forcedLoot ++ pointLoot
      ∧ ∀ t ∈ pointLoot,
          ((recGet? cfgWitness.looseLootBlacklist "m").getD []).contains t.Id = false := by
  obtain ⟨loot, s1, hrun⟩ : ∃ loot s1,
      generateDynamicLoot cfgWitness envDyn dynItem [] "m" ({} : St) = (.ok loot, s1) :=
    ⟨_, _, by with_unfolding_all rfl⟩
  obtain ⟨fp, pp, hl, _, hbl⟩ := blacklist_precedes_guaranteed cfgWitness envDyn dynItem []
    "m" ({} : St) loot s1 hrun
  exact ⟨loot, s1, fp, pp, hrun, hl, hbl⟩

/-- Witness for C2 at a concrete database without the requested map. -/
theorem generateStaticContainers_missingTable_witness :
    ∃ e s1,
      generateStaticContainers cfgWitness envPlacement
        { staticContainers := [], staticLoot := [], locations := [] } lbWitness [] ({} : St)
        = (.error e, s1)
      ∧ (LogLevel.error, "Unable to find static container data for map: " ++ lbWitness.Name)
          ∈ s1.logs :=
  generateStaticContainers_missingTable cfgWitness envPlacement
    { staticContainers := [], staticLoot := [], locations := [] } lbWitness [] ({} : St) rfl

/-- A group that wants five containers from a pool of two. -/
def undersupplyData : IContainerGroupCount :=
  { containerIdsWithProbability := [("ca", 1), ("cb", 1)], chosenCount := 5 }

/-- Witness for C8 at a concrete under-supplied group. -/
theorem getContainersByProbabilty_undersupply_witness :
    (getContainersByProbabilty "gX" undersupplyData ({} : St)).1
      = undersupplyData.containerIdsWithProbability.map (fun p => p.1) :=
  (getContainersByProbabilty_undersupply "gX" undersupplyData ({} : St) (by decide)).1

end SPT
